import Mathlib

/-!
# CMSIS-DAP interface firmware (`interface/Common/src/main.c`)

A shallow embedding of the coordinator task `main_task`, of the functions other
tasks call to signal it, of the timer task `timer_task_30mS` and of the serial
task `serial_process`, with the collaborator calls they issue.  Globals and the
locals of `main_task` are the fields of `State`; every call that leaves the file
(GPIO, USB stack, UART, RTX kernel, target controller, semihosting) is recorded
as an `Event` appended to `State.trace`, and every value such a call returns is
an argument of the step that consumes it.
-/

namespace CmsisDap

/-! ## Constants (main.c lines 33-59) -/

def FLAGS_MAIN_90MS : Nat := 1 <<< 0
def FLAGS_MAIN_30MS : Nat := 1 <<< 1
def FLAGS_MAIN_RESET : Nat := 1 <<< 2
def FLAGS_MAIN_USB_DISCONNECT : Nat := 1 <<< 3
def FLAGS_MAIN_POWERDOWN : Nat := 1 <<< 4
def FLAGS_MAIN_DISABLEDEBUG : Nat := 1 <<< 5
def FLAGS_LED_BLINK_30MS : Nat := 1 <<< 6

def USB_BUSY_TIME : Nat := 10
def USB_CONNECT_DELAY : Nat := 2
def STARTUP_DELAY : Nat := 0

/-- The macro `DECZERO(x)`, `(x ? --x : 0)`: its value.  When `x` is non-zero the
macro also stores the decremented value in `x`; when `x` is zero it stores
nothing, and `x` stays `0`.  In both cases the variable afterwards holds the
value returned here, so a use `DECZERO(v)` is embedded as `v := DECZERO v`. -/
def DECZERO (x : Nat) : Nat := if x ≠ 0 then x - 1 else 0

/-! ## Types -/

/-- The enumeration `LED_STATE` (main.c lines 62-66). -/
inductive LED_STATE
  | LED_OFF
  | LED_FLASH
  | LED_FLASH_PERMANENT
  deriving DecidableEq, Repr

/-- Modelled from the spec: the enumeration `USB_CONNECT` is declared in `main.h`,
which is not part of the sources at hand.  The spec's `UsbConnectionState` lists
Connecting, CheckConnected, Connected, Disconnecting, DisconnectThenConnect and
Disconnected; the constructor names are the enumerators `main_task` uses. -/
inductive USB_CONNECT
  | USB_CONNECTING
  | USB_CHECK_CONNECTED
  | USB_CONNECTED
  | USB_DISCONNECTING
  | USB_DISCONNECT_CONNECT
  | USB_DISCONNECTED
  deriving DecidableEq, Repr

/-- Modelled from the spec: the enumeration `USB_BUSY` is declared in `main.h`,
which is not part of the sources at hand.  The spec's `UsbBusyState` is
Idle or Active; the constructor names are the enumerators `main_task` uses. -/
inductive USB_BUSY
  | USB_IDLE
  | USB_ACTIVE
  deriving DecidableEq, Repr

/-- Modelled from the spec: the target states are declared in `target_reset.h`,
which is not part of the sources at hand.  The spec's `TargetDebugState` is
NoDebug, ResetHold, ResetRun or ResetRunWithDebug; the constructor names are the
enumerators `main_task` passes to `target_set_state`. -/
inductive TARGET_RESET_STATE
  | NO_DEBUG
  | RESET_HOLD
  | RESET_RUN
  | RESET_RUN_WITH_DEBUG
  deriving DecidableEq, Repr

/-- The task entry points handed to `os_tsk_create_user`. -/
inductive Task
  | timer_task_30mS
  | hid_process
  | serial_process
  deriving DecidableEq, Repr

/-- A call that leaves `main.c`.  Arguments that are task handles, stacks and
priorities are left out; the flag argument of `os_evt_set` and of
`gpio_enable_button_flag` is kept. -/
inductive Event
  | gpio_init
  | usbd_init
  | swd_init
  | gpio_set_dap_led (value : Nat)
  | gpio_set_cdc_led (value : Nat)
  | gpio_set_msd_led (value : Nat)
  | gpio_enable_button_flag (flags : Nat)
  | usbd_connect (con : Nat)
  | usbd_configured
  | update_html_file
  | os_tsk_create_user (task : Task)
  | target_set_state (state : TARGET_RESET_STATE)
  | semihost_init
  | semihost_enable
  | semihost_disable
  | get_uid_string
  | USBD_CDC_ACM_DataSend (buf : List Nat) (len : Nat)
  | os_evt_set (flags : Nat)
  | os_itv_set (interval : Nat)
  | os_itv_wait
  | uart_read_data (size : Nat)
  | USBD_CDC_ACM_DataRead (size : Nat)
  | uart_write_data (buf : List Nat) (len : Nat)
  deriving DecidableEq, Repr

/-- The file-scope variables of `main.c` (lines 73-87), the locals of
`main_task` (lines 191-202), whether `main_task` has entered the empty
`while (1)` of line 299, and the calls issued so far. -/
structure State where
  dap_led_usb_activity : Nat
  cdc_led_usb_activity : Nat
  msd_led_usb_activity : Nat
  dap_led_state : LED_STATE
  cdc_led_state : LED_STATE
  msd_led_state : LED_STATE
  send_uID : Nat
  usb_state : USB_CONNECT
  usb_busy : USB_BUSY
  usb_busy_count : Nat
  dap_led_value : Nat
  cdc_led_value : Nat
  msd_led_value : Nat
  usb_state_count : Nat
  thread_started : Nat
  button_activated : Nat
  powered_down : Bool
  trace : List Event
  deriving DecidableEq, Repr

/-- Record one collaborator call. -/
def emit (e : Event) (s : State) : State := { s with trace := s.trace ++ [e] }

/-- The C library `strlen` on the bytes found at a pointer: the number of bytes
before the first zero byte. -/
def strlen (p : List Nat) : Nat := (p.takeWhile (fun b => b != 0)).length

/-! ## Functions called from other tasks (main.c lines 107-161) -/

def main_reset_target (send_unique_id : Nat) (s : State) : State :=
  let s := if send_unique_id ≠ 0 then { s with send_uID := 1 } else s
  emit (.os_evt_set FLAGS_MAIN_RESET) s

def main_blink_dap_led (permanent : Nat) (s : State) : State :=
  { s with
    dap_led_usb_activity := 1
    dap_led_state := if permanent ≠ 0 then .LED_FLASH_PERMANENT else .LED_FLASH }

def main_blink_cdc_led (permanent : Nat) (s : State) : State :=
  { s with
    cdc_led_usb_activity := 1
    cdc_led_state := if permanent ≠ 0 then .LED_FLASH_PERMANENT else .LED_FLASH }

def main_blink_msd_led (permanent : Nat) (s : State) : State :=
  { s with
    msd_led_usb_activity := 1
    msd_led_state := if permanent ≠ 0 then .LED_FLASH_PERMANENT else .LED_FLASH }

def main_usb_busy_event (s : State) : State :=
  { s with usb_busy_count := USB_BUSY_TIME, usb_busy := .USB_ACTIVE }

def main_usb_disconnect_event (s : State) : State :=
  emit (.os_evt_set FLAGS_MAIN_USB_DISCONNECT) s

def main_powerdown_event (s : State) : State :=
  emit (.os_evt_set FLAGS_MAIN_POWERDOWN) s

def main_disable_debug_event (s : State) : State :=
  emit (.os_evt_set FLAGS_MAIN_DISABLEDEBUG) s

/-! ## The timer task (main.c lines 94-105) -/

/-- One pass of the `while (1)` of `timer_task_30mS`, lines 100-103, from the
value `i` of the local `uint8_t i`: the new value of `i` and the calls made.
The test `!(i++ % 3)` reads `i` before the increment, and the increment is
stored in eight bits. -/
def timer_task_30mS_pass (i : Nat) : Nat × List Event :=
  let calls := [Event.os_itv_wait, Event.os_evt_set FLAGS_MAIN_30MS]
  let calls := if ¬ (i % 3 ≠ 0) then calls ++ [Event.os_evt_set FLAGS_MAIN_90MS] else calls
  ((i + 1) % 2 ^ 8, calls)

/-- The value of `i` when the pass number `n` of the loop of `timer_task_30mS`
starts, passes counted from 0; line 96 initialises `i` to 0. -/
def timer_task_30mS_i : Nat → Nat
  | 0 => 0
  | n + 1 => (timer_task_30mS_pass (timer_task_30mS_i n)).1

/-- The calls of pass number `n` of the loop of `timer_task_30mS`. -/
def timer_task_30mS_calls (n : Nat) : List Event :=
  (timer_task_30mS_pass (timer_task_30mS_i n)).2

/-- The call `timer_task_30mS` makes before its loop, line 97. -/
def timer_task_30mS_startup : List Event := [.os_itv_set 3]

/-! ## The serial task (main.c lines 163-183) -/

def SIZE_DATA : Nat := 64

/-- One pass of the `while (1)` of `serial_process`, lines 171-181.  `uart_len`
and `rx` are what `uart_read_data` returns and the bytes it leaves in `data`,
`send_ok` what `USBD_CDC_ACM_DataSend` returns if it is called, `usb_len` and
`tx` what `USBD_CDC_ACM_DataRead` returns and leaves in `data`, `write_ok` what
`uart_write_data` returns if it is called.  `len_data` is a `uint8_t`, so the
returned lengths are stored in eight bits. -/
def serial_process_pass (uart_len : Nat) (rx : List Nat) (send_ok : Nat)
    (usb_len : Nat) (tx : List Nat) (write_ok : Nat) (s : State) : State :=
  let s := emit (.uart_read_data SIZE_DATA) s
  let len_data := uart_len % 2 ^ 8
  let s :=
    if len_data ≠ 0 then
      let s := emit (.USBD_CDC_ACM_DataSend rx len_data) s
      if send_ok ≠ 0 then main_blink_cdc_led 0 s else s
    else s
  let s := emit (.USBD_CDC_ACM_DataRead SIZE_DATA) s
  let len_data := usb_len % 2 ^ 8
  let s :=
    if len_data ≠ 0 then
      let s := emit (.uart_write_data tx len_data) s
      if write_ok ≠ 0 then main_blink_cdc_led 0 s else s
    else s
  s

/-! ## `main_task` (main.c lines 186-427) -/

/-- The state when `main_task` first reaches `os_evt_wait_or`: the static
initialisers of lines 73-81, the assignments of lines 191-199 and 223-230, and
the calls of lines 211-243 in order. -/
def startup : State :=
  { dap_led_usb_activity := 0
    cdc_led_usb_activity := 0
    msd_led_usb_activity := 0
    dap_led_state := .LED_FLASH
    cdc_led_state := .LED_FLASH
    msd_led_state := .LED_FLASH
    send_uID := 0
    usb_state := .USB_CONNECTING
    usb_busy := .USB_IDLE
    usb_busy_count := 0
    dap_led_value := 1
    cdc_led_value := 1
    msd_led_value := 1
    usb_state_count := USB_CONNECT_DELAY
    thread_started := 0
    button_activated := 1
    powered_down := false
    trace :=
      [ .gpio_init, .usbd_init, .swd_init,
        .gpio_set_dap_led 1, .gpio_set_cdc_led 1, .gpio_set_msd_led 1,
        .gpio_enable_button_flag FLAGS_MAIN_RESET,
        .usbd_connect 0,
        .update_html_file,
        .os_tsk_create_user .timer_task_30mS,
        .target_set_state .RESET_RUN_WITH_DEBUG,
        .semihost_init, .semihost_enable ] }

/-- Lines 257-261, the body of `if (flags & FLAGS_MAIN_USB_DISCONNECT)`. -/
def main_task_usb_disconnect (s : State) : State :=
  { s with
    usb_busy := .USB_IDLE
    usb_state_count := 4
    usb_state := .USB_DISCONNECT_CONNECT }

/-- Lines 263-281, the body of `if (flags & FLAGS_MAIN_RESET)`; `id_str` is what
`get_uid_string()` returns. -/
def main_task_reset (id_str : List Nat) (s : State) : State :=
  let s := { s with cdc_led_state := .LED_OFF }
  let s := emit (.gpio_set_cdc_led 0) s
  let s :=
    if s.send_uID ≠ 0 then
      let s := emit (.target_set_state .RESET_HOLD) s
      let s := emit .get_uid_string s
      let s := emit (.USBD_CDC_ACM_DataSend id_str (strlen id_str)) s
      { s with send_uID := 0 }
    else s
  let s := emit (.target_set_state .RESET_RUN) s
  let s := { s with cdc_led_state := .LED_FLASH }
  let s := emit (.gpio_set_cdc_led 1) s
  { s with button_activated := 0 }

/-- Lines 283-300, the body of `if (flags & FLAGS_MAIN_POWERDOWN)`, which ends
in `while (1) { }` and so never returns to the event wait. -/
def main_task_powerdown (s : State) : State :=
  let s := emit .semihost_disable s
  let s := emit (.target_set_state .NO_DEBUG) s
  let s := emit (.usbd_connect 0) s
  let s := emit (.gpio_set_dap_led 0) s
  let s := emit (.gpio_set_cdc_led 0) s
  let s := emit (.gpio_set_msd_led 0) s
  { s with powered_down := true }

/-- Lines 302-308, the body of `if (flags & FLAGS_MAIN_DISABLEDEBUG)`. -/
def main_task_disabledebug (s : State) : State :=
  let s := emit .semihost_disable s
  emit (.target_set_state .NO_DEBUG) s

/-- Lines 311-314: re-enable the reset button flag. -/
def main_task_button (s : State) : State :=
  if s.button_activated = 0 then
    let s := emit (.gpio_enable_button_flag FLAGS_MAIN_RESET) s
    { s with button_activated := 1 }
  else s

/-- Lines 316-328: `switch (usb_busy)`. -/
def main_task_usb_busy (s : State) : State :=
  match s.usb_busy with
  | .USB_ACTIVE =>
    let s := { s with usb_busy_count := DECZERO s.usb_busy_count }
    if s.usb_busy_count = 0 then { s with usb_busy := .USB_IDLE } else s
  | .USB_IDLE => s

/-- Lines 330-375: `switch (usb_state)`; `configured` is what `usbd_configured()`
returns when it is called. -/
def main_task_usb_state (configured : Nat) (s : State) : State :=
  match s.usb_state with
  | .USB_DISCONNECTING =>
    if s.usb_busy = .USB_IDLE then
      let s := emit (.usbd_connect 0) s
      { s with usb_state := .USB_DISCONNECTED }
    else s
  | .USB_DISCONNECT_CONNECT =>
    if s.usb_busy = .USB_IDLE then
      let s := { s with usb_state_count := DECZERO s.usb_state_count }
      if s.usb_state_count = 0 then
        let s := emit (.usbd_connect 0) s
        let s := { s with usb_state := .USB_CONNECTING }
        emit .update_html_file s
      else s
    else s
  | .USB_CONNECTING =>
    let s := { s with usb_state_count := DECZERO s.usb_state_count }
    if s.usb_state_count = 0 then
      let s := emit (.usbd_connect 1) s
      { s with usb_state := .USB_CHECK_CONNECTED }
    else s
  | .USB_CHECK_CONNECTED =>
    let s := emit .usbd_configured s
    if configured ≠ 0 then
      let s :=
        if s.thread_started = 0 then
          let s := emit (.os_tsk_create_user .hid_process) s
          let s := emit (.os_tsk_create_user .serial_process) s
          { s with thread_started := 1 }
        else s
      { s with usb_state := .USB_CONNECTED }
    else s
  | .USB_CONNECTED => s
  | .USB_DISCONNECTED => s

/-- Lines 310-376, the body of `if (flags & FLAGS_MAIN_90MS)`. -/
def main_task_90ms (configured : Nat) (s : State) : State :=
  main_task_usb_state configured (main_task_usb_busy (main_task_button s))

/-- Lines 380-393: the DAP LED block of the 30 ms tick. -/
def main_task_dap_led (s : State) : State :=
  if s.dap_led_usb_activity ≠ 0 ∧
      (s.dap_led_state = .LED_FLASH ∨ s.dap_led_state = .LED_FLASH_PERMANENT) then
    let s :=
      if s.dap_led_value ≠ 0 then { s with dap_led_value := 0 }
      else
        let s := { s with dap_led_value := 1 }
        if s.dap_led_state = .LED_FLASH then { s with dap_led_usb_activity := 0 } else s
    emit (.gpio_set_dap_led s.dap_led_value) s
  else s

/-- Lines 395-408: the MSD LED block of the 30 ms tick. -/
def main_task_msd_led (s : State) : State :=
  if s.msd_led_usb_activity ≠ 0 ∧
      (s.msd_led_state = .LED_FLASH ∨ s.msd_led_state = .LED_FLASH_PERMANENT) then
    let s :=
      if s.msd_led_value ≠ 0 then { s with msd_led_value := 0 }
      else
        let s := { s with msd_led_value := 1 }
        if s.msd_led_state = .LED_FLASH then { s with msd_led_usb_activity := 0 } else s
    emit (.gpio_set_msd_led s.msd_led_value) s
  else s

/-- Lines 410-423: the CDC LED block of the 30 ms tick. -/
def main_task_cdc_led (s : State) : State :=
  if s.cdc_led_usb_activity ≠ 0 ∧
      (s.cdc_led_state = .LED_FLASH ∨ s.cdc_led_state = .LED_FLASH_PERMANENT) then
    let s :=
      if s.cdc_led_value ≠ 0 then { s with cdc_led_value := 0 }
      else
        let s := { s with cdc_led_value := 1 }
        if s.cdc_led_state = .LED_FLASH then { s with cdc_led_usb_activity := 0 } else s
    emit (.gpio_set_cdc_led s.cdc_led_value) s
  else s

/-- Lines 379-425, the body of `if (flags & FLAGS_MAIN_30MS)`: DAP, MSD, CDC. -/
def main_task_30ms (s : State) : State :=
  main_task_cdc_led (main_task_msd_led (main_task_dap_led s))

/-- Lines 302-425: what follows the power-down test in one pass of the loop. -/
def main_task_ticks (flags configured : Nat) (s : State) : State :=
  let s := if flags &&& FLAGS_MAIN_DISABLEDEBUG ≠ 0 then main_task_disabledebug s else s
  let s := if flags &&& FLAGS_MAIN_90MS ≠ 0 then main_task_90ms configured s else s
  if flags &&& FLAGS_MAIN_30MS ≠ 0 then main_task_30ms s else s

/-- Lines 257-281: what precedes the power-down test in one pass of the loop. -/
def main_task_requests (flags : Nat) (id_str : List Nat) (s : State) : State :=
  let s := if flags &&& FLAGS_MAIN_USB_DISCONNECT ≠ 0 then main_task_usb_disconnect s else s
  if flags &&& FLAGS_MAIN_RESET ≠ 0 then main_task_reset id_str s else s

/-- Lines 255-425: one pass of the `while (1)` of `main_task`, from the value
`flags` that `os_evt_get()` returned to the next `os_evt_wait_or`, or to the
empty loop of line 299. -/
def main_task_pass (flags configured : Nat) (id_str : List Nat) (s : State) : State :=
  let s := main_task_requests flags id_str s
  if flags &&& FLAGS_MAIN_POWERDOWN ≠ 0 then main_task_powerdown s
  else main_task_ticks flags configured s

/-- A wake of `main_task` with event flags `flags`.  Once the task is in the
empty loop of line 299 it never reaches `os_evt_wait_or` again, so nothing is
executed. -/
def main_task_wake (flags configured : Nat) (id_str : List Nat) (s : State) : State :=
  if s.powered_down then s else main_task_pass flags configured id_str s

/-! ## Runs -/

/-- What can happen to the state: a wake of `main_task` with the flags read by
`os_evt_get()` and the answers of `usbd_configured()` and `get_uid_string()`,
or a call by another task of one of the functions of lines 107-161.  A call is
taken as a whole between two passes of the loop of `main_task`. -/
inductive Input
  | wake (flags configured : Nat) (id_str : List Nat)
  | reset_target (send_unique_id : Nat)
  | blink_dap_led (permanent : Nat)
  | blink_cdc_led (permanent : Nat)
  | blink_msd_led (permanent : Nat)
  | usb_busy_event
  | usb_disconnect_event
  | powerdown_event
  | disable_debug_event
  deriving DecidableEq, Repr

def step (i : Input) (s : State) : State :=
  match i with
  | .wake flags configured id_str => main_task_wake flags configured id_str s
  | .reset_target n => main_reset_target n s
  | .blink_dap_led p => main_blink_dap_led p s
  | .blink_cdc_led p => main_blink_cdc_led p s
  | .blink_msd_led p => main_blink_msd_led p s
  | .usb_busy_event => main_usb_busy_event s
  | .usb_disconnect_event => main_usb_disconnect_event s
  | .powerdown_event => main_powerdown_event s
  | .disable_debug_event => main_disable_debug_event s

def run (is : List Input) (s : State) : State := is.foldl (fun s i => step i s) s

/-! ## Observations on traces and inputs -/

/-- The arguments of the `usbd_connect` calls of a trace, in order. -/
def usbConnects (tr : List Event) : List Nat :=
  tr.filterMap fun e => match e with
    | .usbd_connect c => some c
    | _ => none

/-- The number of `update_html_file` calls of a trace. -/
def htmlUpdates (tr : List Event) : Nat := tr.count .update_html_file

/-- The number of times a trace creates the task `t`. -/
def spawns (t : Task) (tr : List Event) : Nat := tr.count (.os_tsk_create_user t)

/-- The states handed to `target_set_state` in a trace, in order. -/
def targetStates (tr : List Event) : List TARGET_RESET_STATE :=
  tr.filterMap fun e => match e with
    | .target_set_state t => some t
    | _ => none

/-- The input is a wake of `main_task` whose flags have the bit `FLAGS_MAIN_90MS`. -/
def isTick90 : Input → Bool
  | .wake flags _ _ => flags &&& FLAGS_MAIN_90MS != 0
  | _ => false

/-- The input is a wake of `main_task` whose flags have the bit `FLAGS_MAIN_30MS`. -/
def isTick30 : Input → Bool
  | .wake flags _ _ => flags &&& FLAGS_MAIN_30MS != 0
  | _ => false

/-- The number of 90 ms ticks among the inputs. -/
def ticks90 (is : List Input) : Nat := is.countP isTick90

/-- The number of 30 ms ticks among the inputs. -/
def ticks30 (is : List Input) : Nat := is.countP isTick30

/-- The input is a wake of `main_task`. -/
def isWake : Input → Bool
  | .wake _ _ _ => true
  | _ => false

/-- The calls of the power-down handler, lines 285-296, in order. -/
def powerdownCalls : List Event :=
  [ .semihost_disable, .target_set_state .NO_DEBUG, .usbd_connect 0,
    .gpio_set_dap_led 0, .gpio_set_cdc_led 0, .gpio_set_msd_led 0 ]

/-- The input is not a wake with `FLAGS_MAIN_POWERDOWN`. -/
def noPowerdown : Input → Bool
  | .wake flags _ _ => flags &&& FLAGS_MAIN_POWERDOWN == 0
  | _ => true

/-- The input is not a wake with `FLAGS_MAIN_USB_DISCONNECT`. -/
def noDisconnect : Input → Bool
  | .wake flags _ _ => flags &&& FLAGS_MAIN_USB_DISCONNECT == 0
  | _ => true

/-- The input is not a call of `main_usb_busy_event`. -/
def noBusyBegin : Input → Bool
  | .usb_busy_event => false
  | _ => true

/-- The input is not a wake with `FLAGS_MAIN_RESET`. -/
def noReset : Input → Bool
  | .wake flags _ _ => flags &&& FLAGS_MAIN_RESET == 0
  | _ => true

/-- The answer of `usbd_configured()` carried by a wake. -/
def configuredOf : Input → Nat
  | .wake _ configured _ => configured
  | _ => 0

/-- The input is not a 90 ms tick at which `usbd_configured()` answers non-zero. -/
def unconfigured (i : Input) : Bool := !isTick90 i || configuredOf i == 0

/-- The step evaluates `case USB_CHECK_CONNECTED` of the 90 ms tick with
`usbd_configured()` answering non-zero: a wake of the running task with
`FLAGS_MAIN_90MS`, without `FLAGS_MAIN_POWERDOWN` (which ends the pass before the
tick) and without `FLAGS_MAIN_USB_DISCONNECT` (which changes `usb_state` before
the tick), in state `USB_CHECK_CONNECTED`. -/
def confirms (i : Input) (s : State) : Bool :=
  match i with
  | .wake flags configured _ =>
    !s.powered_down && flags &&& FLAGS_MAIN_90MS != 0 && flags &&& FLAGS_MAIN_POWERDOWN == 0 &&
      flags &&& FLAGS_MAIN_USB_DISCONNECT == 0 && s.usb_state == .USB_CHECK_CONNECTED &&
      configured != 0
  | _ => false

/-- Some step of the run of `is` from `s` is a confirming one. -/
def confirmedIn : List Input → State → Bool
  | [], _ => false
  | i :: is, s => confirms i s || confirmedIn is (step i s)

/-- The three LED channels: the DAP (debug), CDC (serial) and MSD (storage) LEDs. -/
inductive Channel
  | dap
  | cdc
  | msd
  deriving DecidableEq, Repr

/-- The `*_led_usb_activity` variable of a channel. -/
def Channel.activity : Channel → State → Nat
  | .dap, s => s.dap_led_usb_activity
  | .cdc, s => s.cdc_led_usb_activity
  | .msd, s => s.msd_led_usb_activity

/-- The `*_led_state` variable of a channel. -/
def Channel.mode : Channel → State → LED_STATE
  | .dap, s => s.dap_led_state
  | .cdc, s => s.cdc_led_state
  | .msd, s => s.msd_led_state

/-- The `*_led_value` variable of a channel. -/
def Channel.value : Channel → State → Nat
  | .dap, s => s.dap_led_value
  | .cdc, s => s.cdc_led_value
  | .msd, s => s.msd_led_value

/-- The block of the 30 ms tick that serves a channel. -/
def Channel.block : Channel → State → State
  | .dap => main_task_dap_led
  | .cdc => main_task_cdc_led
  | .msd => main_task_msd_led

/-- The call `main_blink_*_led(permanent)` of a channel, as an input. -/
def Channel.blink : Channel → Nat → Input
  | .dap, p => .blink_dap_led p
  | .cdc, p => .blink_cdc_led p
  | .msd, p => .blink_msd_led p

/-- The values handed to the `gpio_set_*_led` of a channel in a trace, in order. -/
def gpioPushes (ch : Channel) (tr : List Event) : List Nat :=
  tr.filterMap fun e => match ch, e with
    | .dap, .gpio_set_dap_led v => some v
    | .cdc, .gpio_set_cdc_led v => some v
    | .msd, .gpio_set_msd_led v => some v
    | _, _ => none

/-- The input is not a call of the `main_blink_*_led` of the channel. -/
def noBlink : Channel → Input → Bool
  | .dap, .blink_dap_led _ => false
  | .cdc, .blink_cdc_led _ => false
  | .msd, .blink_msd_led _ => false
  | _, _ => true

/-- The input leaves the channel to the 30 ms tick: it is not a call of the
`main_blink_*_led` of the channel, not a wake with `FLAGS_MAIN_POWERDOWN` (which
switches all LEDs off), and for the CDC channel not a wake with
`FLAGS_MAIN_RESET` (which drives the CDC LED itself). -/
def calm (ch : Channel) (i : Input) : Bool :=
  noBlink ch i && noPowerdown i && (ch != .cdc || noReset i)

/-- The value a channel shows after one more toggle: `0` after non-zero, `1`
after `0`, as the 30 ms blocks compute it. -/
def toggled (v : Nat) : Nat := if v ≠ 0 then 0 else 1

/-- The values pushed by `n` successive toggles starting from the value `v`. -/
def toggles : Nat → Nat → List Nat
  | 0, _ => []
  | n + 1, v => toggled v :: toggles n (toggled v)

/-- What the LED logic of a channel reads and writes: the activity flag, the mode,
the tracked value, whether the task has powered down, and the values pushed to
the GPIO of the channel. -/
def ledView (ch : Channel) (s : State) : Nat × LED_STATE × Nat × Bool × List Nat :=
  (ch.activity s, ch.mode s, ch.value s, s.powered_down, gpioPushes ch s.trace)

/-- One pass of the loop of `main_task` with the handlers that do not touch the
channel left out: the reset request, then either the power-down or the block of
the channel in the 30 ms tick. -/
def ledPass (ch : Channel) (flags : Nat) (id_str : List Nat) (s : State) : State :=
  let s := if flags &&& FLAGS_MAIN_RESET ≠ 0 then main_task_reset id_str s else s
  if flags &&& FLAGS_MAIN_POWERDOWN ≠ 0 then main_task_powerdown s
  else if flags &&& FLAGS_MAIN_30MS ≠ 0 then ch.block s
  else s

/-- The buffers and lengths handed to `USBD_CDC_ACM_DataSend` in a trace, in order. -/
def dataSends (tr : List Event) : List (List Nat × Nat) :=
  tr.filterMap fun e => match e with
    | .USBD_CDC_ACM_DataSend buf len => some (buf, len)
    | _ => none

/-- The buffers and lengths handed to `uart_write_data` in a trace, in order. -/
def uartWrites (tr : List Event) : List (List Nat × Nat) :=
  tr.filterMap fun e => match e with
    | .uart_write_data buf len => some (buf, len)
    | _ => none

/-- The number of `gpio_enable_button_flag` calls of a trace. -/
def buttonEnables (tr : List Event) : Nat :=
  tr.countP fun e => match e with
    | .gpio_enable_button_flag _ => true
    | _ => false

/-- The flags handed to `os_evt_set` in a trace, in order. -/
def flagsRaised (tr : List Event) : List Nat :=
  tr.filterMap fun e => match e with
    | .os_evt_set flags => some flags
    | _ => none

/-- The mode, activity flag and tracked value of a channel. -/
def ledFields (ch : Channel) (s : State) : LED_STATE × Nat × Nat :=
  (ch.mode s, ch.activity s, ch.value s)

/-- The lifecycle state the spec names: the USB connection state, for each LED
channel its mode, activity flag and tracked value, the busy state and counter,
and the debug state, which the firmware does not store and is read here as the
states handed to `target_set_state` so far. -/
structure Lifecycle where
  usb_state : USB_CONNECT
  dap : LED_STATE × Nat × Nat
  cdc : LED_STATE × Nat × Nat
  msd : LED_STATE × Nat × Nat
  usb_busy : USB_BUSY
  usb_busy_count : Nat
  debug : List TARGET_RESET_STATE
  deriving DecidableEq, Repr

/-- The lifecycle state of a state of the firmware. -/
def lifecycle (s : State) : Lifecycle :=
  { usb_state := s.usb_state
    dap := ledFields .dap s
    cdc := ledFields .cdc s
    msd := ledFields .msd s
    usb_busy := s.usb_busy
    usb_busy_count := s.usb_busy_count
    debug := targetStates s.trace }

/-- A pass of `serial_process` with these answers calls `main_blink_cdc_led(0)`:
a forward step was attempted, its length being non-zero in eight bits, and the
collaborator reported success. -/
def serialPulse (uart_len send_ok usb_len write_ok : Nat) : Bool :=
  (uart_len % 2 ^ 8 != 0 && send_ok != 0) || (usb_len % 2 ^ 8 != 0 && write_ok != 0)

/-- What the re-arming of the reset button reads and writes: `button_activated`,
whether the task has powered down, and the `gpio_enable_button_flag` calls made. -/
def buttonView (s : State) : Nat × Bool × Nat :=
  (s.button_activated, s.powered_down, buttonEnables s.trace)

/-- The states the reset handler hands to `target_set_state`, in order: those
of the trace after the handler that were not in the trace before it. -/
def resetForwards (id_str : List Nat) (s : State) : List TARGET_RESET_STATE :=
  (targetStates (main_task_reset id_str s).trace).drop (targetStates s.trace).length

/-- What the USB connection logic reads and writes: the connection state and its
counter, the busy state and its counter, `thread_started`, whether the task has
powered down, and the USB connects, HTML updates and worker creations issued. -/
def usbView (s : State) :
    USB_CONNECT × Nat × USB_BUSY × Nat × Nat × Bool × List Nat × Nat × Nat × Nat :=
  (s.usb_state, s.usb_state_count, s.usb_busy, s.usb_busy_count, s.thread_started,
    s.powered_down, usbConnects s.trace, htmlUpdates s.trace,
    spawns .hid_process s.trace, spawns .serial_process s.trace)

/-- One pass of the loop of `main_task` with the handlers that do not touch the
USB bookkeeping left out: the disconnect request, then either the power-down or
the busy and connection switches of the 90 ms tick. -/
def usbPass (flags configured : Nat) (s : State) : State :=
  let s := if flags &&& FLAGS_MAIN_USB_DISCONNECT ≠ 0 then main_task_usb_disconnect s else s
  if flags &&& FLAGS_MAIN_POWERDOWN ≠ 0 then main_task_powerdown s
  else if flags &&& FLAGS_MAIN_90MS ≠ 0 then
    main_task_usb_state configured (main_task_usb_busy s)
  else s

/-! ## Basic facts -/

@[simp] theorem emit_trace (e : Event) (s : State) : (emit e s).trace = s.trace ++ [e] := rfl

theorem run_nil (s : State) : run [] s = s := rfl

theorem run_cons (i : Input) (is : List Input) (s : State) :
    run (i :: is) s = run is (step i s) := rfl

theorem run_append (is js : List Input) (s : State) :
    run (is ++ js) s = run js (run is s) := by
  simp [run, List.foldl_append]

/-! ## The USB bookkeeping is untouched by the other handlers -/

theorem usbView_reset (u : List Nat) (s : State) :
    usbView (main_task_reset u s) = usbView s := by
  unfold main_task_reset
  by_cases h : s.send_uID = 0 <;>
    simp [h, usbView, emit, usbConnects, htmlUpdates, spawns, List.filterMap_append,
      List.count_append]

theorem usbView_disabledebug (s : State) :
    usbView (main_task_disabledebug s) = usbView s := by
  simp [main_task_disabledebug, usbView, emit, usbConnects, htmlUpdates, spawns,
    List.filterMap_append, List.count_append]

theorem usbView_button (s : State) : usbView (main_task_button s) = usbView s := by
  unfold main_task_button
  by_cases h : s.button_activated = 0 <;>
    simp [h, usbView, emit, usbConnects, htmlUpdates, spawns, List.filterMap_append,
      List.count_append]

theorem usbView_dap_led (s : State) : usbView (main_task_dap_led s) = usbView s := by
  unfold main_task_dap_led
  by_cases ha : s.dap_led_usb_activity = 0 <;> cases hs : s.dap_led_state <;>
    by_cases hv : s.dap_led_value = 0 <;>
    simp [ha, hs, hv, usbView, emit, usbConnects, htmlUpdates, spawns,
      List.filterMap_append, List.count_append]

theorem usbView_msd_led (s : State) : usbView (main_task_msd_led s) = usbView s := by
  unfold main_task_msd_led
  by_cases ha : s.msd_led_usb_activity = 0 <;> cases hs : s.msd_led_state <;>
    by_cases hv : s.msd_led_value = 0 <;>
    simp [ha, hs, hv, usbView, emit, usbConnects, htmlUpdates, spawns,
      List.filterMap_append, List.count_append]

theorem usbView_cdc_led (s : State) : usbView (main_task_cdc_led s) = usbView s := by
  unfold main_task_cdc_led
  by_cases ha : s.cdc_led_usb_activity = 0 <;> cases hs : s.cdc_led_state <;>
    by_cases hv : s.cdc_led_value = 0 <;>
    simp [ha, hs, hv, usbView, emit, usbConnects, htmlUpdates, spawns,
      List.filterMap_append, List.count_append]

theorem usbView_30ms (s : State) : usbView (main_task_30ms s) = usbView s := by
  rw [main_task_30ms, usbView_cdc_led, usbView_msd_led, usbView_dap_led]

/-- The fields of the USB view, one by one. -/
theorem usbView_fields {a b : State} (h : usbView a = usbView b) :
    a.usb_state = b.usb_state ∧ a.usb_state_count = b.usb_state_count ∧
    a.usb_busy = b.usb_busy ∧ a.usb_busy_count = b.usb_busy_count ∧
    a.thread_started = b.thread_started ∧ a.powered_down = b.powered_down ∧
    usbConnects a.trace = usbConnects b.trace ∧ htmlUpdates a.trace = htmlUpdates b.trace ∧
    spawns .hid_process a.trace = spawns .hid_process b.trace ∧
    spawns .serial_process a.trace = spawns .serial_process b.trace := by
  simpa [usbView] using h

/-- The 90 ms switches and the power-down act on the USB view alone. -/
theorem usbView_disconnect_congr {a b : State} (h : usbView a = usbView b) :
    usbView (main_task_usb_disconnect a) = usbView (main_task_usb_disconnect b) := by
  obtain ⟨h1, h2, h3, h4, h5, h6, h7, h8, h9, h10⟩ := usbView_fields h
  simp [usbView, main_task_usb_disconnect, *]

theorem usbView_powerdown_congr {a b : State} (h : usbView a = usbView b) :
    usbView (main_task_powerdown a) = usbView (main_task_powerdown b) := by
  obtain ⟨h1, h2, h3, h4, h5, h6, h7, h8, h9, h10⟩ := usbView_fields h
  simp [usbView, main_task_powerdown, emit, usbConnects, htmlUpdates, spawns,
    List.filterMap_append, List.count_append] at *
  simp [*]

theorem usbView_usb_busy_congr {a b : State} (h : usbView a = usbView b) :
    usbView (main_task_usb_busy a) = usbView (main_task_usb_busy b) := by
  obtain ⟨h1, h2, h3, h4, h5, h6, h7, h8, h9, h10⟩ := usbView_fields h
  unfold main_task_usb_busy
  rw [h3, h4]
  cases hb : b.usb_busy
  · simp [usbView, *]
  · by_cases hz : DECZERO b.usb_busy_count = 0 <;> simp [usbView, hz, *]

@[simp] theorem usbConnects_append (a b : List Event) :
    usbConnects (a ++ b) = usbConnects a ++ usbConnects b := by
  simp [usbConnects, List.filterMap_append]

@[simp] theorem htmlUpdates_append (a b : List Event) :
    htmlUpdates (a ++ b) = htmlUpdates a + htmlUpdates b := by
  simp [htmlUpdates, List.count_append]

@[simp] theorem spawns_append (t : Task) (a b : List Event) :
    spawns t (a ++ b) = spawns t a + spawns t b := by
  simp [spawns, List.count_append]

@[simp] theorem targetStates_append (a b : List Event) :
    targetStates (a ++ b) = targetStates a ++ targetStates b := by
  simp [targetStates, List.filterMap_append]

@[simp] theorem usbConnects_nil : usbConnects [] = [] := rfl

@[simp] theorem htmlUpdates_nil : htmlUpdates [] = 0 := rfl

@[simp] theorem spawns_nil (t : Task) : spawns t [] = 0 := rfl

@[simp] theorem targetStates_nil : targetStates [] = [] := rfl

@[simp] theorem usbConnects_cons (e : Event) (tr : List Event) :
    usbConnects (e :: tr) = (match e with
      | .usbd_connect c => [c]
      | _ => []) ++ usbConnects tr := by
  cases e <;> rfl

@[simp] theorem targetStates_cons (e : Event) (tr : List Event) :
    targetStates (e :: tr) = (match e with
      | .target_set_state t => [t]
      | _ => []) ++ targetStates tr := by
  cases e <;> rfl

@[simp] theorem htmlUpdates_cons (e : Event) (tr : List Event) :
    htmlUpdates (e :: tr) = htmlUpdates tr + if e = .update_html_file then 1 else 0 := by
  by_cases h : e = .update_html_file
  · simp [htmlUpdates, h]
  · have h2 : ¬ (.update_html_file : Event) = e := fun h3 => h h3.symm
    simp [htmlUpdates, h, List.count_cons, h2]

@[simp] theorem spawns_cons (t : Task) (e : Event) (tr : List Event) :
    spawns t (e :: tr) = spawns t tr + if e = .os_tsk_create_user t then 1 else 0 := by
  by_cases h : e = .os_tsk_create_user t
  · simp [spawns, h]
  · have h2 : ¬ (.os_tsk_create_user t : Event) = e := fun h3 => h h3.symm
    simp [spawns, h, List.count_cons, h2]

theorem usbView_usb_state_congr (c : Nat) {a b : State} (h : usbView a = usbView b) :
    usbView (main_task_usb_state c a) = usbView (main_task_usb_state c b) := by
  obtain ⟨h1, h2, h3, h4, h5, h6, h7, h8, h9, h10⟩ := usbView_fields h
  unfold main_task_usb_state
  rw [h1, h2, h3, h5]
  cases hs : b.usb_state <;> cases hb : b.usb_busy <;>
    by_cases hz : DECZERO b.usb_state_count = 0 <;> by_cases hc : c = 0 <;>
    by_cases ht : b.thread_started = 0 <;>
    simp [usbView, emit, usbConnects_append, htmlUpdates_append, spawns_append,
      usbConnects_cons, htmlUpdates_cons, spawns_cons, hz, hc, ht, *]

theorem usbView_requests (f : Nat) (u : List Nat) (s : State) :
    usbView (main_task_requests f u s) =
      usbView (if f &&& FLAGS_MAIN_USB_DISCONNECT ≠ 0 then main_task_usb_disconnect s else s) := by
  unfold main_task_requests
  by_cases hr : f &&& FLAGS_MAIN_RESET = 0
  · simp [hr]
  · simp [hr, usbView_reset]

theorem usbView_ticks (f c : Nat) (s : State) :
    usbView (main_task_ticks f c s) =
      usbView (if f &&& FLAGS_MAIN_90MS ≠ 0 then
        main_task_usb_state c (main_task_usb_busy s) else s) := by
  have h1 : usbView (if f &&& FLAGS_MAIN_DISABLEDEBUG ≠ 0 then main_task_disabledebug s else s)
      = usbView s := by
    by_cases hd : f &&& FLAGS_MAIN_DISABLEDEBUG = 0
    · simp [hd]
    · simp [hd, usbView_disabledebug]
  have h2 : usbView (if f &&& FLAGS_MAIN_90MS ≠ 0 then main_task_90ms c
        (if f &&& FLAGS_MAIN_DISABLEDEBUG ≠ 0 then main_task_disabledebug s else s)
      else (if f &&& FLAGS_MAIN_DISABLEDEBUG ≠ 0 then main_task_disabledebug s else s))
      = usbView (if f &&& FLAGS_MAIN_90MS ≠ 0 then
        main_task_usb_state c (main_task_usb_busy s) else s) := by
    by_cases ht : f &&& FLAGS_MAIN_90MS = 0
    · simpa [ht] using h1
    · simp only [ne_eq, ht, not_false_eq_true, if_true, main_task_90ms]
      exact usbView_usb_state_congr c
        (usbView_usb_busy_congr ((usbView_button _).trans h1))
  unfold main_task_ticks
  by_cases h30 : f &&& FLAGS_MAIN_30MS = 0
  · simpa [h30] using h2
  · simp only [ne_eq, h30, not_false_eq_true, if_true, usbView_30ms]
    exact h2

theorem usbView_wake (f c : Nat) (u : List Nat) (s : State) (hs : s.powered_down = false) :
    usbView (main_task_wake f c u s) = usbView (usbPass f c s) := by
  have hr := usbView_requests f u s
  unfold main_task_wake main_task_pass usbPass
  simp only [hs, Bool.false_eq_true, if_false]
  by_cases hp : f &&& FLAGS_MAIN_POWERDOWN = 0
  · simp only [ne_eq, hp, not_true_eq_false, if_false]
    rw [usbView_ticks]
    by_cases ht : f &&& FLAGS_MAIN_90MS = 0
    · simpa [ht] using hr
    · simp only [ne_eq, ht, not_false_eq_true, if_true]
      exact usbView_usb_state_congr c (usbView_usb_busy_congr hr)
  · simp only [ne_eq, hp, not_false_eq_true, if_true]
    exact usbView_powerdown_congr hr

theorem main_task_wake_halted (f c : Nat) (u : List Nat) (s : State)
    (hs : s.powered_down = true) : main_task_wake f c u s = s := by
  simp [main_task_wake, hs]

/-- Calls from other tasks leave the USB view alone, except `main_usb_busy_event`. -/
theorem usbView_step_call (i : Input) (s : State)
    (hw : ∀ f c u, i ≠ .wake f c u) (hb : noBusyBegin i = true) :
    usbView (step i s) = usbView s := by
  cases i with
  | wake f c u => exact absurd rfl (hw f c u)
  | usb_busy_event => simp [noBusyBegin] at hb
  | reset_target n =>
    by_cases hn : n = 0 <;>
      simp [step, main_reset_target, hn, usbView, emit, usbConnects_append,
        htmlUpdates_append, spawns_append, usbConnects_cons, htmlUpdates_cons,
        spawns_cons]
  | blink_dap_led p => simp [step, main_blink_dap_led, usbView]
  | blink_cdc_led p => simp [step, main_blink_cdc_led, usbView]
  | blink_msd_led p => simp [step, main_blink_msd_led, usbView]
  | usb_disconnect_event =>
    simp [step, main_usb_disconnect_event, usbView, emit, usbConnects_append,
      htmlUpdates_append, spawns_append, usbConnects_cons, htmlUpdates_cons, spawns_cons]
  | powerdown_event =>
    simp [step, main_powerdown_event, usbView, emit, usbConnects_append,
      htmlUpdates_append, spawns_append, usbConnects_cons, htmlUpdates_cons, spawns_cons]
  | disable_debug_event =>
    simp [step, main_disable_debug_event, usbView, emit, usbConnects_append,
      htmlUpdates_append, spawns_append, usbConnects_cons, htmlUpdates_cons, spawns_cons]

/-! ## One input, seen through the USB view -/

theorem usbView_step_tick (i : Input) (s : State) (hs : s.powered_down = false)
    (ht : isTick90 i = true) (hd : noDisconnect i = true) (hp : noPowerdown i = true) :
    usbView (step i s) =
      usbView (main_task_usb_state (configuredOf i) (main_task_usb_busy s)) := by
  cases i with
  | wake f c u =>
    simp only [isTick90, noDisconnect, noPowerdown, bne_iff_ne, beq_iff_eq, ne_eq] at ht hd hp
    rw [step, usbView_wake f c u s hs]
    simp [usbPass, ht, hd, hp, configuredOf]
  | _ => simp [isTick90] at ht

theorem usbView_step_quiet (i : Input) (s : State) (hs : s.powered_down = false)
    (ht : isTick90 i = false) (hd : noDisconnect i = true) (hp : noPowerdown i = true)
    (hb : noBusyBegin i = true) :
    usbView (step i s) = usbView s := by
  cases i with
  | wake f c u =>
    simp only [isTick90, noDisconnect, noPowerdown, bne_iff_ne, beq_iff_eq, ne_eq,
      Bool.not_eq_true, Bool.not_eq_false, bne_eq_false_iff_eq] at ht hd hp
    rw [step, usbView_wake f c u s hs]
    simp [usbPass, ht, hd, hp]
  | usb_busy_event => simp [noBusyBegin] at hb
  | _ => exact usbView_step_call _ s (by intro f c u h; cases h) hb

/-- A busy-begin call changes the busy state and counter and nothing else of the view. -/
theorem usb_busy_event_fields (s : State) :
    (main_usb_busy_event s).usb_state = s.usb_state ∧
    (main_usb_busy_event s).usb_state_count = s.usb_state_count ∧
    (main_usb_busy_event s).usb_busy = .USB_ACTIVE ∧
    (main_usb_busy_event s).usb_busy_count = USB_BUSY_TIME ∧
    (main_usb_busy_event s).thread_started = s.thread_started ∧
    (main_usb_busy_event s).powered_down = s.powered_down ∧
    (main_usb_busy_event s).trace = s.trace := by
  simp [main_usb_busy_event]

/-! ## C1 -/

/-- C1, what the code does: from every running state in `USB_DISCONNECT_CONNECT`
with `usb_busy` idle whose hold counter is about to reach 0, the 90 ms tick issues
`usbd_connect(0)` and moves to `USB_CONNECTING` leaving `usb_state_count` at 0,
not at `USB_CONNECT_DELAY`; so the very next 90 ms tick issues `usbd_connect(1)`
and moves on to `USB_CHECK_CONNECTED`. -/
theorem C1_reconnect_skips_connect_delay (s : State) (i j : Input)
    (hs : s.powered_down = false)
    (hst : s.usb_state = .USB_DISCONNECT_CONNECT) (hb : s.usb_busy = .USB_IDLE)
    (hk : s.usb_state_count ≤ 1)
    (hi : isTick90 i = true ∧ noDisconnect i = true ∧ noPowerdown i = true)
    (hj : isTick90 j = true ∧ noDisconnect j = true ∧ noPowerdown j = true) :
    (step i s).usb_state = .USB_CONNECTING ∧
    (step i s).usb_state_count = 0 ∧
    (step i s).usb_state_count ≠ USB_CONNECT_DELAY ∧
    usbConnects (step i s).trace = usbConnects s.trace ++ [0] ∧
    usbConnects (step j (step i s)).trace = usbConnects (step i s).trace ++ [1] ∧
    (step j (step i s)).usb_state = .USB_CHECK_CONNECTED := by
  obtain ⟨a1, a2, a3, a4, a5, a6, a7, a8, a9, a10⟩ :=
    usbView_fields (usbView_step_tick i s hs hi.1 hi.2.1 hi.2.2)
  have hz : DECZERO s.usb_state_count = 0 := by
    unfold DECZERO; split <;> omega
  simp [main_task_usb_state, main_task_usb_busy, hst, hb, hz, hs, emit] at a1 a2 a3 a6 a7
  obtain ⟨b1, b2, b3, b4, b5, b6, b7, b8, b9, b10⟩ :=
    usbView_fields (usbView_step_tick j (step i s) a6 hj.1 hj.2.1 hj.2.2)
  simp [main_task_usb_state, main_task_usb_busy, a1, a2, a3, DECZERO, emit] at b1 b7
  simp [a1, a2, a7, b1, b7, USB_CONNECT_DELAY]

/-- C1 at the failing input: startup, a disconnect request, four 90 ms ticks, and
a fifth tick. -/
theorem C1_reconnect_skips_connect_delay_witness :
    (run [.wake FLAGS_MAIN_USB_DISCONNECT 0 [], .wake FLAGS_MAIN_90MS 0 [],
        .wake FLAGS_MAIN_90MS 0 [], .wake FLAGS_MAIN_90MS 0 []] startup).usb_state_count = 1 ∧
    (run [.wake FLAGS_MAIN_USB_DISCONNECT 0 [], .wake FLAGS_MAIN_90MS 0 [],
        .wake FLAGS_MAIN_90MS 0 [], .wake FLAGS_MAIN_90MS 0 [],
        .wake FLAGS_MAIN_90MS 0 []] startup).usb_state_count = 0 ∧
    usbConnects (run [.wake FLAGS_MAIN_USB_DISCONNECT 0 [], .wake FLAGS_MAIN_90MS 0 [],
        .wake FLAGS_MAIN_90MS 0 [], .wake FLAGS_MAIN_90MS 0 [],
        .wake FLAGS_MAIN_90MS 0 [], .wake FLAGS_MAIN_90MS 0 []] startup).trace
      = [0, 0, 1] :=
  have h := C1_reconnect_skips_connect_delay
    (run [.wake FLAGS_MAIN_USB_DISCONNECT 0 [], .wake FLAGS_MAIN_90MS 0 [],
        .wake FLAGS_MAIN_90MS 0 [], .wake FLAGS_MAIN_90MS 0 []] startup)
    (.wake FLAGS_MAIN_90MS 0 []) (.wake FLAGS_MAIN_90MS 0 [])
    (by decide) (by decide) (by decide) (by decide) (by decide) (by decide)
  ⟨by decide, h.2.1, h.2.2.2.2.1.trans (by decide)⟩

/-! ## C2 -/

/-- C2: for every running state, one pass of the loop whose flags hold
`FLAGS_MAIN_USB_DISCONNECT` ends with `usb_busy` idle and `usb_state` at
`USB_DISCONNECT_CONNECT`; the hold counter ends at 4 when the 90 ms tick is not
evaluated in that pass and at 3 when it is, which shows that the request is
handled before the tick; and unless the pass powers down, no `usbd_connect` call
is issued. -/
theorem C2_disconnect_request_first (s : State) (f c : Nat) (u : List Nat)
    (hs : s.powered_down = false) (hd : f &&& FLAGS_MAIN_USB_DISCONNECT ≠ 0) :
    (main_task_wake f c u s).usb_busy = .USB_IDLE ∧
    (main_task_wake f c u s).usb_state = .USB_DISCONNECT_CONNECT ∧
    (f &&& FLAGS_MAIN_90MS = 0 ∨ f &&& FLAGS_MAIN_POWERDOWN ≠ 0 →
      (main_task_wake f c u s).usb_state_count = 4) ∧
    (f &&& FLAGS_MAIN_90MS ≠ 0 ∧ f &&& FLAGS_MAIN_POWERDOWN = 0 →
      (main_task_wake f c u s).usb_state_count = 3) ∧
    (f &&& FLAGS_MAIN_POWERDOWN = 0 →
      usbConnects (main_task_wake f c u s).trace = usbConnects s.trace) := by
  obtain ⟨a1, a2, a3, a4, a5, a6, a7, a8, a9, a10⟩ :=
    usbView_fields (usbView_wake f c u s hs)
  rw [a1, a2, a3, a7]
  by_cases hp : f &&& FLAGS_MAIN_POWERDOWN = 0 <;>
    by_cases ht : f &&& FLAGS_MAIN_90MS = 0 <;>
    simp [usbPass, hd, hp, ht, main_task_usb_disconnect, main_task_powerdown,
      main_task_usb_state, main_task_usb_busy, DECZERO, emit]

/-- C2 at startup with the flags `FLAGS_MAIN_USB_DISCONNECT | FLAGS_MAIN_90MS`. -/
theorem C2_disconnect_request_first_witness :
    (main_task_wake (FLAGS_MAIN_USB_DISCONNECT ||| FLAGS_MAIN_90MS) 0 [] startup).usb_busy
      = .USB_IDLE ∧
    (main_task_wake (FLAGS_MAIN_USB_DISCONNECT ||| FLAGS_MAIN_90MS) 0 [] startup).usb_state
      = .USB_DISCONNECT_CONNECT ∧
    (main_task_wake (FLAGS_MAIN_USB_DISCONNECT ||| FLAGS_MAIN_90MS) 0 [] startup).usb_state_count
      = 3 ∧
    usbConnects (main_task_wake (FLAGS_MAIN_USB_DISCONNECT ||| FLAGS_MAIN_90MS) 0 []
      startup).trace = usbConnects startup.trace :=
  have h := C2_disconnect_request_first startup
    (FLAGS_MAIN_USB_DISCONNECT ||| FLAGS_MAIN_90MS) 0 [] (by decide) (by decide)
  ⟨h.1, h.2.1, h.2.2.2.1 (by decide), h.2.2.2.2 (by decide)⟩

/-! ## C3 -/

theorem ticks90_cons (i : Input) (is : List Input) :
    ticks90 (i :: is) = ticks90 is + if isTick90 i = true then 1 else 0 := by
  simp [ticks90, List.countP_cons]

/-- While the hold counter has more left than the 90 ms ticks to come, the state
stays `USB_DISCONNECT_CONNECT`, the counter drops by one per tick, and no
`usbd_connect` or `update_html_file` call is made. -/
theorem hold_run (is : List Input) : ∀ (s : State), s.powered_down = false →
    s.usb_state = .USB_DISCONNECT_CONNECT → s.usb_busy = .USB_IDLE →
    (∀ i ∈ is, noDisconnect i = true ∧ noPowerdown i = true ∧ noBusyBegin i = true) →
    ticks90 is < s.usb_state_count →
    (run is s).powered_down = false ∧
    (run is s).usb_state = .USB_DISCONNECT_CONNECT ∧
    (run is s).usb_busy = .USB_IDLE ∧
    (run is s).usb_state_count = s.usb_state_count - ticks90 is ∧
    usbConnects (run is s).trace = usbConnects s.trace ∧
    htmlUpdates (run is s).trace = htmlUpdates s.trace := by
  induction is with
  | nil => intro s hs hst hb _ _; simp [run_nil, hs, hst, hb, ticks90]
  | cons i is ih =>
    intro s hs hst hb hq hn
    have hi := hq i (List.mem_cons_self _ _)
    have hq2 : ∀ j ∈ is, noDisconnect j = true ∧ noPowerdown j = true ∧ noBusyBegin j = true :=
      fun j hj => hq j (List.mem_cons_of_mem _ hj)
    rw [ticks90_cons] at hn
    rw [run_cons, ticks90_cons]
    by_cases ht : isTick90 i = true
    · obtain ⟨a1, a2, a3, a4, a5, a6, a7, a8, a9, a10⟩ :=
        usbView_fields (usbView_step_tick i s hs ht hi.1 hi.2.1)
      simp only [ht, if_true] at hn ⊢
      have hz : DECZERO s.usb_state_count = s.usb_state_count - 1 := by
        unfold DECZERO; split <;> omega
      have hnz : ¬ s.usb_state_count - 1 = 0 := by omega
      simp [main_task_usb_state, main_task_usb_busy, hst, hb, hz, hs, hnz]
        at a1 a2 a3 a6 a7 a8
      obtain ⟨r1, r2, r3, r4, r5, r6⟩ := ih (step i s) a6 a1 a3 hq2 (by omega)
      refine ⟨r1, r2, r3, ?_, ?_, ?_⟩
      · rw [r4, a2]; omega
      · rw [r5, a7]
      · rw [r6, a8]
    · have ht2 : isTick90 i = false := by simpa using ht
      obtain ⟨a1, a2, a3, a4, a5, a6, a7, a8, a9, a10⟩ :=
        usbView_fields (usbView_step_quiet i s hs ht2 hi.1 hi.2.1 hi.2.2)
      simp only [ht2, Bool.false_eq_true, if_false, Nat.add_zero] at hn ⊢
      obtain ⟨r1, r2, r3, r4, r5, r6⟩ :=
        ih (step i s) (a6.trans hs) (a1.trans hst) (a3.trans hb) hq2 (by omega)
      refine ⟨r1, r2, r3, ?_, ?_, ?_⟩
      · rw [r4, a2]
      · rw [r5, a7]
      · rw [r6, a8]

/-- C3: let a running `main_task` handle `FLAGS_MAIN_USB_DISCONNECT` in a pass
without the 90 ms tick (and without power-down), and let any inputs follow that
hold no further disconnect request, no power-down and no `main_usb_busy_event`.
As long as at most three 90 ms ticks have been evaluated the state is
`USB_DISCONNECT_CONNECT`, the hold counter is 4 less the number of ticks, and no
`usbd_connect` and no `update_html_file` call has been made; the fourth 90 ms
tick issues `usbd_connect(0)` and `update_html_file()` and moves the state to
`USB_CONNECTING`. -/
theorem C3_disconnect_after_four_ticks (s : State) (f c : Nat) (u : List Nat)
    (is : List Input) (j : Input)
    (hs : s.powered_down = false)
    (hd : f &&& FLAGS_MAIN_USB_DISCONNECT ≠ 0) (ht : f &&& FLAGS_MAIN_90MS = 0)
    (hp : f &&& FLAGS_MAIN_POWERDOWN = 0)
    (hq : ∀ i ∈ is, noDisconnect i = true ∧ noPowerdown i = true ∧ noBusyBegin i = true)
    (hn : ticks90 is ≤ 3)
    (hj : isTick90 j = true ∧ noDisconnect j = true ∧ noPowerdown j = true) :
    (run is (main_task_wake f c u s)).usb_state = .USB_DISCONNECT_CONNECT ∧
    (run is (main_task_wake f c u s)).usb_state_count = 4 - ticks90 is ∧
    usbConnects (run is (main_task_wake f c u s)).trace = usbConnects s.trace ∧
    htmlUpdates (run is (main_task_wake f c u s)).trace = htmlUpdates s.trace ∧
    (ticks90 is = 3 →
      usbConnects (step j (run is (main_task_wake f c u s))).trace
        = usbConnects s.trace ++ [0] ∧
      htmlUpdates (step j (run is (main_task_wake f c u s))).trace
        = htmlUpdates s.trace + 1 ∧
      (step j (run is (main_task_wake f c u s))).usb_state = .USB_CONNECTING) := by
  obtain ⟨a1, a2, a3, a4, a5, a6, a7, a8, a9, a10⟩ :=
    usbView_fields (usbView_wake f c u s hs)
  simp [usbPass, hd, ht, hp, main_task_usb_disconnect, hs] at a1 a2 a3 a6 a7 a8
  obtain ⟨r1, r2, r3, r4, r5, r6⟩ :=
    hold_run is (main_task_wake f c u s) a6 a1 a3 hq (by omega)
  refine ⟨r2, by rw [r4, a2], by rw [r5, a7], by rw [r6, a8], ?_⟩
  intro h3
  obtain ⟨b1, b2, b3, b4, b5, b6, b7, b8, b9, b10⟩ :=
    usbView_fields (usbView_step_tick j _ r1 hj.1 hj.2.1 hj.2.2)
  have hc1 : (run is (main_task_wake f c u s)).usb_state_count = 1 := by
    rw [r4, a2, h3]
  simp [main_task_usb_state, main_task_usb_busy, r2, r3, hc1, DECZERO, emit] at b1 b7 b8
  refine ⟨by rw [b7, r5, a7], by rw [b8, r6, a8], b1⟩

/-- C3 at startup: a disconnect request, three 90 ms ticks, then the fourth. -/
theorem C3_disconnect_after_four_ticks_witness :
    (run [.wake FLAGS_MAIN_90MS 0 [], .wake FLAGS_MAIN_90MS 0 [], .wake FLAGS_MAIN_90MS 0 []]
      (main_task_wake FLAGS_MAIN_USB_DISCONNECT 0 [] startup)).usb_state_count = 1 ∧
    usbConnects (step (.wake FLAGS_MAIN_90MS 0 [])
      (run [.wake FLAGS_MAIN_90MS 0 [], .wake FLAGS_MAIN_90MS 0 [], .wake FLAGS_MAIN_90MS 0 []]
        (main_task_wake FLAGS_MAIN_USB_DISCONNECT 0 [] startup))).trace
      = usbConnects startup.trace ++ [0] :=
  have h := C3_disconnect_after_four_ticks startup FLAGS_MAIN_USB_DISCONNECT 0 []
    [.wake FLAGS_MAIN_90MS 0 [], .wake FLAGS_MAIN_90MS 0 [], .wake FLAGS_MAIN_90MS 0 []]
    (.wake FLAGS_MAIN_90MS 0 [])
    (by decide) (by decide) (by decide) (by decide) (by decide) (by decide) (by decide)
  ⟨h.2.1, (h.2.2.2.2 (by decide)).1⟩

/-! ## C4 -/

/-- The busy switch of the 90 ms tick touches only `usb_busy` and `usb_busy_count`. -/
theorem usb_busy_keeps (s : State) :
    (main_task_usb_busy s).usb_state = s.usb_state ∧
    (main_task_usb_busy s).usb_state_count = s.usb_state_count ∧
    (main_task_usb_busy s).thread_started = s.thread_started ∧
    (main_task_usb_busy s).powered_down = s.powered_down ∧
    (main_task_usb_busy s).trace = s.trace := by
  unfold main_task_usb_busy
  cases hb : s.usb_busy
  · simp
  · by_cases hz : DECZERO s.usb_busy_count = 0 <;> simp [hz]

/-- The connection switch of the 90 ms tick leaves the busy state and counter alone. -/
theorem usb_state_keeps (c : Nat) (s : State) :
    (main_task_usb_state c s).usb_busy = s.usb_busy ∧
    (main_task_usb_state c s).usb_busy_count = s.usb_busy_count ∧
    (main_task_usb_state c s).powered_down = s.powered_down := by
  unfold main_task_usb_state
  cases hs : s.usb_state <;> cases hb : s.usb_busy <;>
    by_cases hz : DECZERO s.usb_state_count = 0 <;> by_cases hc : c = 0 <;>
    by_cases ht : s.thread_started = 0 <;> simp [emit, hz, hc, ht, hb]

/-- An input that is no 90 ms tick, disconnect request or power-down leaves the
connection state, its counter and the USB commands issued as they are. -/
theorem step_keeps_connection (i : Input) (s : State) (hs : s.powered_down = false)
    (ht : isTick90 i = false) (hd : noDisconnect i = true) (hp : noPowerdown i = true) :
    (step i s).powered_down = false ∧ (step i s).usb_state = s.usb_state ∧
    (step i s).usb_state_count = s.usb_state_count ∧
    usbConnects (step i s).trace = usbConnects s.trace := by
  by_cases hb : noBusyBegin i = true
  · obtain ⟨a1, a2, a3, a4, a5, a6, a7, a8, a9, a10⟩ :=
      usbView_fields (usbView_step_quiet i s hs ht hd hp hb)
    exact ⟨a6.trans hs, a1, a2, a7⟩
  · cases i <;> simp [noBusyBegin] at hb
    simp [step, main_usb_busy_event, hs]

theorem connecting_run (is : List Input) : ∀ (s : State), s.powered_down = false →
    s.usb_state = .USB_CONNECTING →
    (∀ i ∈ is, noDisconnect i = true ∧ noPowerdown i = true) →
    ticks90 is < s.usb_state_count →
    (run is s).powered_down = false ∧
    (run is s).usb_state = .USB_CONNECTING ∧
    (run is s).usb_state_count = s.usb_state_count - ticks90 is ∧
    usbConnects (run is s).trace = usbConnects s.trace := by
  induction is with
  | nil => intro s hs hst _ _; simp [run_nil, hs, hst, ticks90]
  | cons i is ih =>
    intro s hs hst hq hn
    have hi := hq i (List.mem_cons_self _ _)
    have hq2 : ∀ j ∈ is, noDisconnect j = true ∧ noPowerdown j = true :=
      fun j hj => hq j (List.mem_cons_of_mem _ hj)
    rw [ticks90_cons] at hn
    rw [run_cons, ticks90_cons]
    by_cases ht : isTick90 i = true
    · obtain ⟨a1, a2, a3, a4, a5, a6, a7, a8, a9, a10⟩ :=
        usbView_fields (usbView_step_tick i s hs ht hi.1 hi.2)
      obtain ⟨k1, k2, k3, k4, k5⟩ := usb_busy_keeps s
      simp only [ht, if_true] at hn ⊢
      have hz : DECZERO s.usb_state_count = s.usb_state_count - 1 := by
        unfold DECZERO; split <;> omega
      have hnz : ¬ s.usb_state_count - 1 = 0 := by omega
      simp [main_task_usb_state, k1, k2, k4, k5, hst, hz, hs, hnz] at a1 a2 a6 a7
      obtain ⟨r1, r2, r3, r4⟩ := ih (step i s) a6 a1 hq2 (by omega)
      refine ⟨r1, r2, ?_, ?_⟩
      · rw [r3, a2]; omega
      · rw [r4, a7]
    · have ht2 : isTick90 i = false := by simpa using ht
      obtain ⟨a1, a2, a3, a4⟩ := step_keeps_connection i s hs ht2 hi.1 hi.2
      simp only [ht2, Bool.false_eq_true, if_false, Nat.add_zero] at hn ⊢
      obtain ⟨r1, r2, r3, r4⟩ := ih (step i s) a1 (a2.trans hst) hq2 (by omega)
      refine ⟨r1, r2, ?_, ?_⟩
      · rw [r3, a3]
      · rw [r4, a4]

theorem check_connected_run (is : List Input) : ∀ (s : State), s.powered_down = false →
    s.usb_state = .USB_CHECK_CONNECTED →
    (∀ i ∈ is, noDisconnect i = true ∧ noPowerdown i = true ∧ unconfigured i = true) →
    (run is s).powered_down = false ∧
    (run is s).usb_state = .USB_CHECK_CONNECTED ∧
    usbConnects (run is s).trace = usbConnects s.trace := by
  induction is with
  | nil => intro s hs hst _; simp [run_nil, hs, hst]
  | cons i is ih =>
    intro s hs hst hq
    have hi := hq i (List.mem_cons_self _ _)
    have hq2 : ∀ j ∈ is,
        noDisconnect j = true ∧ noPowerdown j = true ∧ unconfigured j = true :=
      fun j hj => hq j (List.mem_cons_of_mem _ hj)
    rw [run_cons]
    by_cases ht : isTick90 i = true
    · obtain ⟨a1, a2, a3, a4, a5, a6, a7, a8, a9, a10⟩ :=
        usbView_fields (usbView_step_tick i s hs ht hi.1 hi.2.1)
      obtain ⟨k1, k2, k3, k4, k5⟩ := usb_busy_keeps s
      have hc : configuredOf i = 0 := by
        have := hi.2.2
        simpa [unconfigured, ht] using this
      simp [main_task_usb_state, k1, k2, k4, k5, hst, hs, hc, emit] at a1 a6 a7
      obtain ⟨r1, r2, r3⟩ := ih (step i s) a6 a1 hq2
      exact ⟨r1, r2, r3.trans a7⟩
    · have ht2 : isTick90 i = false := by simpa using ht
      obtain ⟨a1, a2, a3, a4⟩ := step_keeps_connection i s hs ht2 hi.1 hi.2.1
      obtain ⟨r1, r2, r3⟩ := ih (step i s) a1 (a2.trans hst) hq2
      exact ⟨r1, r2, r3.trans a4⟩

/-- C4: start from any running state with `usb_state = USB_CONNECTING` and
`usb_state_count = USB_CONNECT_DELAY` (as at startup) and feed inputs without
disconnect request or power-down.  While at most one 90 ms tick has been
evaluated the state is `USB_CONNECTING` and no `usbd_connect` call was made; the
second 90 ms tick issues `usbd_connect(1)` and moves to `USB_CHECK_CONNECTED`;
there the state stays through all inputs whose 90 ms ticks see
`usbd_configured()` answer 0, and the first 90 ms tick that sees it answer
non-zero moves the state to `USB_CONNECTED`. -/
theorem C4_connect_after_two_ticks (s : State) (is : List Input) (j : Input)
    (js : List Input) (k : Input)
    (hs : s.powered_down = false) (hst : s.usb_state = .USB_CONNECTING)
    (hc : s.usb_state_count = USB_CONNECT_DELAY)
    (hq : ∀ i ∈ is, noDisconnect i = true ∧ noPowerdown i = true)
    (hn : ticks90 is ≤ 1)
    (hj : isTick90 j = true ∧ noDisconnect j = true ∧ noPowerdown j = true)
    (hjs : ∀ i ∈ js, noDisconnect i = true ∧ noPowerdown i = true ∧ unconfigured i = true)
    (hk : isTick90 k = true ∧ noDisconnect k = true ∧ noPowerdown k = true ∧
      configuredOf k ≠ 0) :
    (run is s).usb_state = .USB_CONNECTING ∧
    usbConnects (run is s).trace = usbConnects s.trace ∧
    (ticks90 is = 1 →
      usbConnects (step j (run is s)).trace = usbConnects s.trace ++ [1] ∧
      (step j (run is s)).usb_state = .USB_CHECK_CONNECTED ∧
      (run js (step j (run is s))).usb_state = .USB_CHECK_CONNECTED ∧
      (step k (run js (step j (run is s)))).usb_state = .USB_CONNECTED) := by
  simp only [USB_CONNECT_DELAY] at hc
  obtain ⟨r1, r2, r3, r4⟩ := connecting_run is s hs hst hq (by omega)
  refine ⟨r2, r4, ?_⟩
  intro h1
  obtain ⟨a1, a2, a3, a4, a5, a6, a7, a8, a9, a10⟩ :=
    usbView_fields (usbView_step_tick j _ r1 hj.1 hj.2.1 hj.2.2)
  obtain ⟨k1, k2, k3, k4, k5⟩ := usb_busy_keeps (run is s)
  have hc1 : (run is s).usb_state_count = 1 := by rw [r3, hc, h1]
  simp [main_task_usb_state, k1, k2, k4, k5, r1, r2, hc1, DECZERO, emit] at a1 a6 a7
  obtain ⟨c1, c2, c3⟩ := check_connected_run js _ a6 a1 hjs
  obtain ⟨b1, b2, b3, b4, b5, b6, b7, b8, b9, b10⟩ :=
    usbView_fields (usbView_step_tick k _ c1 hk.1 hk.2.1 hk.2.2.1)
  obtain ⟨m1, m2, m3, m4, m5⟩ := usb_busy_keeps (run js (step j (run is s)))
  have hk4 := hk.2.2.2
  by_cases hth : (run js (step j (run is s))).thread_started = 0 <;>
    simp [main_task_usb_state, m1, m3, c2, hk4, hth, emit] at b1 <;>
    exact ⟨by rw [a7, r4], a1, c2, b1⟩

/-- C4 from the startup state: a tick, a second tick, a tick that finds the device
not configured, and a tick that finds it configured. -/
theorem C4_connect_after_two_ticks_witness :
    (run [.wake FLAGS_MAIN_90MS 0 []] startup).usb_state = .USB_CONNECTING ∧
    usbConnects (step (.wake FLAGS_MAIN_90MS 0 [])
      (run [.wake FLAGS_MAIN_90MS 0 []] startup)).trace = usbConnects startup.trace ++ [1] ∧
    (step (.wake FLAGS_MAIN_90MS 1 []) (run [.wake FLAGS_MAIN_90MS 0 []]
      (step (.wake FLAGS_MAIN_90MS 0 [])
        (run [.wake FLAGS_MAIN_90MS 0 []] startup)))).usb_state = .USB_CONNECTED :=
  have h := C4_connect_after_two_ticks startup [.wake FLAGS_MAIN_90MS 0 []]
    (.wake FLAGS_MAIN_90MS 0 []) [.wake FLAGS_MAIN_90MS 0 []] (.wake FLAGS_MAIN_90MS 1 [])
    (by decide) (by decide) (by decide) (by decide) (by decide) (by decide) (by decide)
    (by decide)
  ⟨h.1, (h.2.2 (by decide)).1, (h.2.2 (by decide)).2.2.2⟩

/-! ## C5 -/

/-- The connection switch creates the two worker tasks exactly when it is in
`USB_CHECK_CONNECTED`, `usbd_configured()` answers non-zero and `thread_started`
is still 0; it never clears `thread_started`. -/
theorem usb_state_spawn (c : Nat) (s : State) :
    ((main_task_usb_state c s).thread_started ≠ 0 ↔
      s.thread_started ≠ 0 ∨ (s.usb_state = .USB_CHECK_CONNECTED ∧ c ≠ 0)) ∧
    spawns .hid_process (main_task_usb_state c s).trace = spawns .hid_process s.trace +
      (if s.usb_state = .USB_CHECK_CONNECTED ∧ c ≠ 0 ∧ s.thread_started = 0 then 1 else 0) ∧
    spawns .serial_process (main_task_usb_state c s).trace = spawns .serial_process s.trace +
      (if s.usb_state = .USB_CHECK_CONNECTED ∧ c ≠ 0 ∧ s.thread_started = 0 then 1 else 0) := by
  unfold main_task_usb_state
  cases hs : s.usb_state <;> cases hb : s.usb_busy <;>
    by_cases hz : DECZERO s.usb_state_count = 0 <;> by_cases hc : c = 0 <;>
    by_cases ht : s.thread_started = 0 <;> simp [emit, hz, hc, ht]

/-- One input: `thread_started` becomes non-zero exactly at a confirming step, and
the worker tasks are created exactly at a confirming step that finds it 0. -/
theorem step_spawn (i : Input) (s : State) :
    ((step i s).thread_started ≠ 0 ↔ s.thread_started ≠ 0 ∨ confirms i s = true) ∧
    spawns .hid_process (step i s).trace = spawns .hid_process s.trace +
      (if confirms i s = true ∧ s.thread_started = 0 then 1 else 0) ∧
    spawns .serial_process (step i s).trace = spawns .serial_process s.trace +
      (if confirms i s = true ∧ s.thread_started = 0 then 1 else 0) := by
  by_cases hw : ∀ f c u, i ≠ .wake f c u
  · have hcf : confirms i s = false := by
      cases i <;> first | rfl | exact absurd rfl (hw _ _ _)
    by_cases hb : noBusyBegin i = true
    · obtain ⟨a1, a2, a3, a4, a5, a6, a7, a8, a9, a10⟩ :=
        usbView_fields (usbView_step_call i s hw hb)
      simp [hcf, a5, a9, a10]
    · cases i <;> simp [noBusyBegin] at hb
      simp [step, main_usb_busy_event, confirms]
  · push_neg at hw
    obtain ⟨f, c, u, rfl⟩ := hw
    cases hs : s.powered_down
    · obtain ⟨a1, a2, a3, a4, a5, a6, a7, a8, a9, a10⟩ :=
        usbView_fields (usbView_wake f c u s hs)
      rw [step, a5, a9, a10]
      unfold usbPass confirms
      by_cases hp : f &&& FLAGS_MAIN_POWERDOWN = 0
      · by_cases ht : f &&& FLAGS_MAIN_90MS = 0
        · by_cases hd : f &&& FLAGS_MAIN_USB_DISCONNECT = 0 <;>
            simp [hp, ht, hd, hs, main_task_usb_disconnect]
        · by_cases hd : f &&& FLAGS_MAIN_USB_DISCONNECT = 0
          · obtain ⟨k1, k2, k3, k4, k5⟩ := usb_busy_keeps s
            obtain ⟨b1, b2, b3⟩ := usb_state_spawn c (main_task_usb_busy s)
            simp only [k1, k3, k5] at b1 b2 b3
            simp [hp, ht, hd, hs, b1, b2, b3, and_assoc]
          · obtain ⟨k1, k2, k3, k4, k5⟩ := usb_busy_keeps (main_task_usb_disconnect s)
            obtain ⟨b1, b2, b3⟩ :=
              usb_state_spawn c (main_task_usb_busy (main_task_usb_disconnect s))
            have e1 : (main_task_usb_disconnect s).usb_state = .USB_DISCONNECT_CONNECT := rfl
            have e2 : (main_task_usb_disconnect s).thread_started = s.thread_started := rfl
            have e3 : (main_task_usb_disconnect s).trace = s.trace := rfl
            simp only [k1, k3, k5, e1, e2, e3] at b1 b2 b3
            simp [hp, ht, hd, hs, b1, b2, b3]
      · by_cases hd : f &&& FLAGS_MAIN_USB_DISCONNECT = 0 <;>
          simp [hp, hd, hs, main_task_usb_disconnect, main_task_powerdown, emit]
    · simp [step, main_task_wake, hs, confirms]

/-- From any state: the worker creations a run adds, and `thread_started` after it. -/
theorem run_spawn (is : List Input) : ∀ (s : State),
    ((run is s).thread_started ≠ 0 ↔ s.thread_started ≠ 0 ∨ confirmedIn is s = true) ∧
    spawns .hid_process (run is s).trace = spawns .hid_process s.trace +
      (if confirmedIn is s = true ∧ s.thread_started = 0 then 1 else 0) ∧
    spawns .serial_process (run is s).trace = spawns .serial_process s.trace +
      (if confirmedIn is s = true ∧ s.thread_started = 0 then 1 else 0) := by
  induction is with
  | nil => intro s; simp [run_nil, confirmedIn]
  | cons i is ih =>
    intro s
    obtain ⟨a1, a2, a3⟩ := step_spawn i s
    obtain ⟨r1, r2, r3⟩ := ih (step i s)
    rw [run_cons, r2, r3, a2, a3]
    simp only [confirmedIn, Bool.or_eq_true]
    by_cases h0 : s.thread_started = 0
    · by_cases hc : confirms i s = true
      · have h1 : (step i s).thread_started ≠ 0 := a1.mpr (Or.inr hc)
        refine ⟨?_, ?_, ?_⟩
        · rw [r1]; simp [hc, h1]
        · simp [hc, h0, h1]
        · simp [hc, h0, h1]
      · have h1 : (step i s).thread_started = 0 := by
          by_contra h
          rcases a1.mp h with h | h
          · exact h h0
          · exact hc h
        refine ⟨?_, ?_, ?_⟩
        · rw [r1]; simp [hc, h0, h1]
        · simp [hc, h0, h1]
        · simp [hc, h0, h1]
    · have h1 : (step i s).thread_started ≠ 0 := a1.mpr (Or.inl h0)
      refine ⟨?_, ?_, ?_⟩
      · rw [r1]; simp [h0, h1]
      · simp [h0, h1]
      · simp [h0, h1]

theorem confirmedIn_append (is js : List Input) : ∀ (s : State),
    confirmedIn (is ++ js) s = (confirmedIn is s || confirmedIn js (run is s)) := by
  induction is with
  | nil => intro s; simp [confirmedIn, run_nil]
  | cons i is ih => intro s; simp [confirmedIn, run_cons, ih, Bool.or_assoc]

/-- C5: for every sequence of inputs from startup (wakes with any flags and any
collaborator answers, and calls from other tasks), each of the two worker tasks
has been created once if some step so far evaluated `USB_CHECK_CONNECTED` on a
90 ms tick with `usbd_configured()` non-zero, and not at all otherwise; so the
creation happens at the first such step and never again.  `thread_started` is
non-zero exactly from that step on, and no continuation of the run clears it. -/
theorem C5_workers_spawned_once (is : List Input) :
    spawns .hid_process (run is startup).trace
      = (if confirmedIn is startup = true then 1 else 0) ∧
    spawns .serial_process (run is startup).trace
      = (if confirmedIn is startup = true then 1 else 0) ∧
    ((run is startup).thread_started ≠ 0 ↔ confirmedIn is startup = true) ∧
    (∀ js : List Input, (run is startup).thread_started ≠ 0 →
      (run (is ++ js) startup).thread_started ≠ 0 ∧
      spawns .hid_process (run (is ++ js) startup).trace = 1 ∧
      spawns .serial_process (run (is ++ js) startup).trace = 1) := by
  obtain ⟨r1, r2, r3⟩ := run_spawn is startup
  have h0 : startup.thread_started = 0 := rfl
  have hh : spawns .hid_process startup.trace = 0 := by decide
  have hse : spawns .serial_process startup.trace = 0 := by decide
  have e1 : (run is startup).thread_started ≠ 0 ↔ confirmedIn is startup = true := by
    rw [r1]; simp [h0]
  refine ⟨by rw [r2, hh]; simp [h0], by rw [r3, hse]; simp [h0], e1, ?_⟩
  intro js hne
  have hc := e1.mp hne
  obtain ⟨q1, q2, q3⟩ := run_spawn (is ++ js) startup
  have hc2 : confirmedIn (is ++ js) startup = true := by
    rw [confirmedIn_append, hc]; rfl
  refine ⟨?_, ?_, ?_⟩
  · rw [q1]; exact Or.inr hc2
  · rw [q2, hh]; simp [hc2, h0]
  · rw [q3, hse]; simp [hc2, h0]

/-! ## C6 -/

theorem usb_busy_active (s : State) (h : s.usb_busy = .USB_ACTIVE) :
    (main_task_usb_busy s).usb_busy_count = s.usb_busy_count - 1 ∧
    (main_task_usb_busy s).usb_busy =
      (if s.usb_busy_count ≤ 1 then .USB_IDLE else .USB_ACTIVE) := by
  have hz : DECZERO s.usb_busy_count = s.usb_busy_count - 1 := by
    unfold DECZERO; split <;> omega
  unfold main_task_usb_busy
  rw [h]
  by_cases h1 : s.usb_busy_count ≤ 1
  · have h0 : s.usb_busy_count - 1 = 0 := by omega
    simp [hz, h0, h1]
  · have h0 : ¬ s.usb_busy_count - 1 = 0 := by omega
    simp [hz, h0, h1, h]

theorem usb_busy_idle (s : State) (h : s.usb_busy = .USB_IDLE) :
    main_task_usb_busy s = s := by
  unfold main_task_usb_busy
  rw [h]

/-- The busy countdown over a run without busy-begin call, disconnect request or
power-down: from an active state with a positive counter, or an idle one with
counter 0, the counter drops by one per 90 ms tick down to 0 and the state is
active exactly while the counter is positive. -/
theorem busy_run (is : List Input) : ∀ (s : State), s.powered_down = false →
    ((s.usb_busy = .USB_ACTIVE ∧ 1 ≤ s.usb_busy_count) ∨
      (s.usb_busy = .USB_IDLE ∧ s.usb_busy_count = 0)) →
    (∀ i ∈ is, noDisconnect i = true ∧ noPowerdown i = true ∧ noBusyBegin i = true) →
    (run is s).usb_busy_count = s.usb_busy_count - ticks90 is ∧
    (run is s).usb_busy =
      (if ticks90 is < s.usb_busy_count then .USB_ACTIVE else .USB_IDLE) := by
  induction is with
  | nil =>
    intro s _ hb _
    rcases hb with ⟨h1, h2⟩ | ⟨h1, h2⟩
    · have : 0 < s.usb_busy_count := by omega
      simp [run_nil, ticks90, h1, this]
    · simp [run_nil, ticks90, h1, h2]
  | cons i is ih =>
    intro s hs hb hq
    have hi := hq i (List.mem_cons_self _ _)
    have hq2 : ∀ j ∈ is, noDisconnect j = true ∧ noPowerdown j = true ∧ noBusyBegin j = true :=
      fun j hj => hq j (List.mem_cons_of_mem _ hj)
    rw [run_cons, ticks90_cons]
    by_cases ht : isTick90 i = true
    · obtain ⟨a1, a2, a3, a4, a5, a6, a7, a8, a9, a10⟩ :=
        usbView_fields (usbView_step_tick i s hs ht hi.1 hi.2.1)
      obtain ⟨k1, k2, k3⟩ := usb_state_keeps (configuredOf i) (main_task_usb_busy s)
      obtain ⟨m1, m2, m3, m4, m5⟩ := usb_busy_keeps s
      rw [k1] at a3
      rw [k2] at a4
      rw [k3, m4, hs] at a6
      simp only [ht, if_true]
      rcases hb with ⟨h1, h2⟩ | ⟨h1, h2⟩
      · obtain ⟨u1, u2⟩ := usb_busy_active s h1
        rw [u1] at a4
        rw [u2] at a3
        by_cases h1c : s.usb_busy_count ≤ 1
        · rw [if_pos h1c] at a3
          obtain ⟨r1, r2⟩ := ih (step i s) a6 (Or.inr ⟨a3, by omega⟩) hq2
          rw [r1, r2, a4]
          refine ⟨by omega, ?_⟩
          rw [if_neg (by omega), if_neg (by omega)]
        · rw [if_neg h1c] at a3
          obtain ⟨r1, r2⟩ := ih (step i s) a6 (Or.inl ⟨a3, by omega⟩) hq2
          rw [r1, r2, a4]
          refine ⟨by omega, ?_⟩
          by_cases hlt : ticks90 is < s.usb_busy_count - 1
          · rw [if_pos hlt, if_pos (by omega)]
          · rw [if_neg hlt, if_neg (by omega)]
      · rw [usb_busy_idle s h1] at a3 a4
        obtain ⟨r1, r2⟩ := ih (step i s) a6 (Or.inr ⟨a3.trans h1, a4.trans h2⟩) hq2
        rw [r1, r2, a4, h2]
        simp
    · have ht2 : isTick90 i = false := by simpa using ht
      obtain ⟨a1, a2, a3, a4, a5, a6, a7, a8, a9, a10⟩ :=
        usbView_fields (usbView_step_quiet i s hs ht2 hi.1 hi.2.1 hi.2.2)
      simp only [ht2, Bool.false_eq_true, if_false, Nat.add_zero]
      obtain ⟨r1, r2⟩ := ih (step i s) (a6.trans hs) (by rw [a3, a4]; exact hb) hq2
      rw [r1, r2, a4]
      exact ⟨rfl, rfl⟩

/-- C6: in a running `main_task`, `main_usb_busy_event` sets `usb_busy` to
`USB_ACTIVE` and `usb_busy_count` to `USB_BUSY_TIME` = 10.  After any inputs that
hold no further `main_usb_busy_event`, no disconnect request and no power-down,
with `n` 90 ms ticks among them, the counter is `10 - n` (truncated at 0, it never
wraps) and `usb_busy` is `USB_ACTIVE` when `n < 10` and `USB_IDLE` from the tenth
tick on. -/
theorem C6_busy_countdown (s : State) (is : List Input)
    (hs : s.powered_down = false)
    (hq : ∀ i ∈ is, noDisconnect i = true ∧ noPowerdown i = true ∧ noBusyBegin i = true) :
    (main_usb_busy_event s).usb_busy = .USB_ACTIVE ∧
    (main_usb_busy_event s).usb_busy_count = 10 ∧
    (run is (main_usb_busy_event s)).usb_busy_count = 10 - ticks90 is ∧
    (run is (main_usb_busy_event s)).usb_busy =
      (if ticks90 is < 10 then .USB_ACTIVE else .USB_IDLE) := by
  obtain ⟨e1, e2, e3, e4, e5, e6, e7⟩ := usb_busy_event_fields s
  simp only [USB_BUSY_TIME] at e4
  obtain ⟨r1, r2⟩ := busy_run is (main_usb_busy_event s) (e6.trans hs)
    (Or.inl ⟨e3, by omega⟩) hq
  rw [e4] at r1 r2
  exact ⟨e3, e4, r1, r2⟩

/-- C6 from startup: nine ticks leave the counter at 1 and USB active. -/
theorem C6_busy_countdown_witness :
    (run (List.replicate 9 (.wake FLAGS_MAIN_90MS 0 []))
      (main_usb_busy_event startup)).usb_busy_count = 10 - 9 ∧
    (run (List.replicate 9 (.wake FLAGS_MAIN_90MS 0 []))
      (main_usb_busy_event startup)).usb_busy = .USB_ACTIVE :=
  have h := C6_busy_countdown startup (List.replicate 9 (.wake FLAGS_MAIN_90MS 0 []))
    (by decide) (by decide)
  ⟨h.2.2.1, h.2.2.2⟩

/-! ## The LED view of a channel -/

@[simp] theorem gpioPushes_append (ch : Channel) (a b : List Event) :
    gpioPushes ch (a ++ b) = gpioPushes ch a ++ gpioPushes ch b := by
  simp [gpioPushes, List.filterMap_append]

@[simp] theorem gpioPushes_nil (ch : Channel) : gpioPushes ch [] = [] := rfl

@[simp] theorem gpioPushes_cons (ch : Channel) (e : Event) (tr : List Event) :
    gpioPushes ch (e :: tr) = (match ch, e with
      | .dap, .gpio_set_dap_led v => [v]
      | .cdc, .gpio_set_cdc_led v => [v]
      | .msd, .gpio_set_msd_led v => [v]
      | _, _ => []) ++ gpioPushes ch tr := by
  cases ch <;> cases e <;> rfl

theorem ledView_fields {ch : Channel} {a b : State} (h : ledView ch a = ledView ch b) :
    ch.activity a = ch.activity b ∧ ch.mode a = ch.mode b ∧ ch.value a = ch.value b ∧
    a.powered_down = b.powered_down ∧ gpioPushes ch a.trace = gpioPushes ch b.trace := by
  simpa [ledView] using h

theorem ledView_disconnect (ch : Channel) (s : State) :
    ledView ch (main_task_usb_disconnect s) = ledView ch s := by
  cases ch <;> rfl

theorem ledView_disabledebug (ch : Channel) (s : State) :
    ledView ch (main_task_disabledebug s) = ledView ch s := by
  cases ch <;>
    simp [ledView, main_task_disabledebug, emit, Channel.activity, Channel.mode, Channel.value]

theorem ledView_button (ch : Channel) (s : State) :
    ledView ch (main_task_button s) = ledView ch s := by
  unfold main_task_button
  by_cases h : s.button_activated = 0 <;> cases ch <;>
    simp [h, ledView, emit, Channel.activity, Channel.mode, Channel.value]

theorem ledView_usb_busy (ch : Channel) (s : State) :
    ledView ch (main_task_usb_busy s) = ledView ch s := by
  unfold main_task_usb_busy
  cases hb : s.usb_busy <;> by_cases hz : DECZERO s.usb_busy_count = 0 <;> cases ch <;>
    simp [hz, ledView, Channel.activity, Channel.mode, Channel.value]

theorem ledView_usb_state (ch : Channel) (c : Nat) (s : State) :
    ledView ch (main_task_usb_state c s) = ledView ch s := by
  unfold main_task_usb_state
  cases hs : s.usb_state <;> cases hb : s.usb_busy <;>
    by_cases hz : DECZERO s.usb_state_count = 0 <;> by_cases hc : c = 0 <;>
    by_cases ht : s.thread_started = 0 <;> cases ch <;>
    simp [emit, hz, hc, ht, ledView, Channel.activity, Channel.mode, Channel.value]

theorem ledView_90ms (ch : Channel) (c : Nat) (s : State) :
    ledView ch (main_task_90ms c s) = ledView ch s := by
  rw [main_task_90ms, ledView_usb_state, ledView_usb_busy, ledView_button]

theorem ledView_block_other (ch other : Channel) (h : ch ≠ other) (s : State) :
    ledView ch (other.block s) = ledView ch s := by
  cases other
  · unfold Channel.block main_task_dap_led
    by_cases ha : s.dap_led_usb_activity = 0 <;> cases hs : s.dap_led_state <;>
      by_cases hv : s.dap_led_value = 0 <;> cases ch <;>
      first
      | exact absurd rfl h
      | simp [ha, hs, hv, ledView, emit, Channel.activity, Channel.mode, Channel.value]
  · unfold Channel.block main_task_cdc_led
    by_cases ha : s.cdc_led_usb_activity = 0 <;> cases hs : s.cdc_led_state <;>
      by_cases hv : s.cdc_led_value = 0 <;> cases ch <;>
      first
      | exact absurd rfl h
      | simp [ha, hs, hv, ledView, emit, Channel.activity, Channel.mode, Channel.value]
  · unfold Channel.block main_task_msd_led
    by_cases ha : s.msd_led_usb_activity = 0 <;> cases hs : s.msd_led_state <;>
      by_cases hv : s.msd_led_value = 0 <;> cases ch <;>
      first
      | exact absurd rfl h
      | simp [ha, hs, hv, ledView, emit, Channel.activity, Channel.mode, Channel.value]

/-- The block of a channel: what it does to the view of that channel. -/
theorem ledView_block (ch : Channel) (s : State) :
    ledView ch (ch.block s) =
      if ch.activity s ≠ 0 ∧ ch.mode s ≠ .LED_OFF then
        ((if toggled (ch.value s) ≠ 0 ∧ ch.mode s = .LED_FLASH then 0 else ch.activity s),
          ch.mode s, toggled (ch.value s), s.powered_down,
          gpioPushes ch s.trace ++ [toggled (ch.value s)])
      else ledView ch s := by
  cases ch
  · unfold Channel.block main_task_dap_led
    by_cases ha : s.dap_led_usb_activity = 0 <;> cases hs : s.dap_led_state <;>
      by_cases hv : s.dap_led_value = 0 <;>
      simp [ha, hs, hv, ledView, emit, toggled, Channel.activity, Channel.mode, Channel.value]
  · unfold Channel.block main_task_cdc_led
    by_cases ha : s.cdc_led_usb_activity = 0 <;> cases hs : s.cdc_led_state <;>
      by_cases hv : s.cdc_led_value = 0 <;>
      simp [ha, hs, hv, ledView, emit, toggled, Channel.activity, Channel.mode, Channel.value]
  · unfold Channel.block main_task_msd_led
    by_cases ha : s.msd_led_usb_activity = 0 <;> cases hs : s.msd_led_state <;>
      by_cases hv : s.msd_led_value = 0 <;>
      simp [ha, hs, hv, ledView, emit, toggled, Channel.activity, Channel.mode, Channel.value]

theorem ledView_block_congr (ch : Channel) {a b : State} (h : ledView ch a = ledView ch b) :
    ledView ch (ch.block a) = ledView ch (ch.block b) := by
  obtain ⟨h1, h2, h3, h4, h5⟩ := ledView_fields h
  rw [ledView_block, ledView_block, h1, h2, h3, h4, h5, h]

theorem ledView_30ms (ch : Channel) (s : State) :
    ledView ch (main_task_30ms s) = ledView ch (ch.block s) := by
  unfold main_task_30ms
  cases ch
  · exact (ledView_block_other .dap .cdc (by decide) _).trans
      (ledView_block_other .dap .msd (by decide) _)
  · exact ledView_block_congr .cdc
      ((ledView_block_other .cdc .msd (by decide) _).trans
        (ledView_block_other .cdc .dap (by decide) _))
  · exact (ledView_block_other .msd .cdc (by decide) _).trans
      (ledView_block_congr .msd (ledView_block_other .msd .dap (by decide) _))

/-- The reset request: what it does to the view of a channel. -/
theorem ledView_reset (ch : Channel) (u : List Nat) (s : State) :
    ledView ch (main_task_reset u s) =
      if ch = .cdc then
        (ch.activity s, .LED_FLASH, ch.value s, s.powered_down,
          gpioPushes ch s.trace ++ [0, 1])
      else ledView ch s := by
  unfold main_task_reset
  by_cases h : s.send_uID = 0 <;> cases ch <;>
    simp [h, ledView, emit, Channel.activity, Channel.mode, Channel.value]

theorem ledView_reset_congr (ch : Channel) (u : List Nat) {a b : State}
    (h : ledView ch a = ledView ch b) :
    ledView ch (main_task_reset u a) = ledView ch (main_task_reset u b) := by
  obtain ⟨h1, h2, h3, h4, h5⟩ := ledView_fields h
  rw [ledView_reset, ledView_reset, h1, h3, h4, h5, h]

/-- The power-down: what it does to the view of a channel. -/
theorem ledView_powerdown (ch : Channel) (s : State) :
    ledView ch (main_task_powerdown s) =
      (ch.activity s, ch.mode s, ch.value s, true, gpioPushes ch s.trace ++ [0]) := by
  cases ch <;>
    simp [main_task_powerdown, ledView, emit, Channel.activity, Channel.mode, Channel.value]

theorem ledView_powerdown_congr (ch : Channel) {a b : State}
    (h : ledView ch a = ledView ch b) :
    ledView ch (main_task_powerdown a) = ledView ch (main_task_powerdown b) := by
  obtain ⟨h1, h2, h3, h4, h5⟩ := ledView_fields h
  rw [ledView_powerdown, ledView_powerdown, h1, h2, h3, h5]

theorem ledView_requests (ch : Channel) (f : Nat) (u : List Nat) (s : State) :
    ledView ch (main_task_requests f u s) =
      ledView ch (if f &&& FLAGS_MAIN_RESET ≠ 0 then main_task_reset u s else s) := by
  unfold main_task_requests
  by_cases hd : f &&& FLAGS_MAIN_USB_DISCONNECT = 0
  · simp [hd]
  · by_cases hr : f &&& FLAGS_MAIN_RESET = 0
    · simp [hd, hr, ledView_disconnect]
    · simp only [ne_eq, hd, hr, not_false_eq_true, if_true]
      exact ledView_reset_congr ch u (ledView_disconnect ch s)

theorem ledView_ticks (ch : Channel) (f c : Nat) (s : State) :
    ledView ch (main_task_ticks f c s) =
      ledView ch (if f &&& FLAGS_MAIN_30MS ≠ 0 then ch.block s else s) := by
  have h1 : ledView ch (if f &&& FLAGS_MAIN_DISABLEDEBUG ≠ 0 then main_task_disabledebug s
      else s) = ledView ch s := by
    by_cases hd : f &&& FLAGS_MAIN_DISABLEDEBUG = 0
    · simp [hd]
    · simp [hd, ledView_disabledebug]
  have h2 : ledView ch (if f &&& FLAGS_MAIN_90MS ≠ 0 then main_task_90ms c
        (if f &&& FLAGS_MAIN_DISABLEDEBUG ≠ 0 then main_task_disabledebug s else s)
      else (if f &&& FLAGS_MAIN_DISABLEDEBUG ≠ 0 then main_task_disabledebug s else s))
      = ledView ch s := by
    by_cases ht : f &&& FLAGS_MAIN_90MS = 0
    · simpa [ht] using h1
    · simp only [ne_eq, ht, not_false_eq_true, if_true, ledView_90ms]
      exact h1
  unfold main_task_ticks
  by_cases h30 : f &&& FLAGS_MAIN_30MS = 0
  · simpa [h30] using h2
  · simp only [ne_eq, h30, not_false_eq_true, if_true, ledView_30ms]
    exact ledView_block_congr ch h2

theorem ledView_wake (ch : Channel) (f c : Nat) (u : List Nat) (s : State)
    (hs : s.powered_down = false) :
    ledView ch (main_task_wake f c u s) = ledView ch (ledPass ch f u s) := by
  have hr := ledView_requests ch f u s
  unfold main_task_wake main_task_pass ledPass
  simp only [hs, Bool.false_eq_true, if_false]
  by_cases hp : f &&& FLAGS_MAIN_POWERDOWN = 0
  · simp only [ne_eq, hp, not_true_eq_false, if_false]
    rw [ledView_ticks]
    by_cases ht : f &&& FLAGS_MAIN_30MS = 0
    · simpa [ht] using hr
    · simp only [ne_eq, ht, not_false_eq_true, if_true]
      exact ledView_block_congr ch hr
  · simp only [ne_eq, hp, not_false_eq_true, if_true]
    exact ledView_powerdown_congr ch hr

/-- Calls from other tasks leave the view of a channel alone, except the
`main_blink_*_led` of that channel. -/
theorem ledView_step_call (ch : Channel) (i : Input) (s : State)
    (hw : ∀ f c u, i ≠ .wake f c u) (hb : noBlink ch i = true) :
    ledView ch (step i s) = ledView ch s := by
  cases i with
  | wake f c u => exact absurd rfl (hw f c u)
  | reset_target n =>
    by_cases hn : n = 0 <;> cases ch <;>
      simp [step, main_reset_target, hn, ledView, emit, Channel.activity, Channel.mode,
        Channel.value]
  | blink_dap_led p =>
    cases ch <;> first
      | (simp [noBlink] at hb; done)
      | simp [step, main_blink_dap_led, ledView, Channel.activity, Channel.mode, Channel.value]
  | blink_cdc_led p =>
    cases ch <;> first
      | (simp [noBlink] at hb; done)
      | simp [step, main_blink_cdc_led, ledView, Channel.activity, Channel.mode, Channel.value]
  | blink_msd_led p =>
    cases ch <;> first
      | (simp [noBlink] at hb; done)
      | simp [step, main_blink_msd_led, ledView, Channel.activity, Channel.mode, Channel.value]
  | usb_busy_event =>
    cases ch <;>
      simp [step, main_usb_busy_event, ledView, Channel.activity, Channel.mode, Channel.value]
  | usb_disconnect_event =>
    cases ch <;>
      simp [step, main_usb_disconnect_event, ledView, emit, Channel.activity, Channel.mode,
        Channel.value]
  | powerdown_event =>
    cases ch <;>
      simp [step, main_powerdown_event, ledView, emit, Channel.activity, Channel.mode,
        Channel.value]
  | disable_debug_event =>
    cases ch <;>
      simp [step, main_disable_debug_event, ledView, emit, Channel.activity, Channel.mode,
        Channel.value]

/-- The `main_blink_*_led` of a channel sets its activity flag and its mode. -/
theorem ledView_blink (ch : Channel) (p : Nat) (s : State) :
    ledView ch (step (ch.blink p) s) =
      (1, (if p ≠ 0 then .LED_FLASH_PERMANENT else .LED_FLASH), ch.value s, s.powered_down,
        gpioPushes ch s.trace) := by
  cases ch <;>
    simp [Channel.blink, step, main_blink_dap_led, main_blink_cdc_led, main_blink_msd_led,
      ledView, Channel.activity, Channel.mode, Channel.value]

theorem ticks30_cons (i : Input) (is : List Input) :
    ticks30 (i :: is) = ticks30 is + if isTick30 i = true then 1 else 0 := by
  simp [ticks30, List.countP_cons]

/-- One calm input, seen through the view of the channel: a 30 ms tick runs the
block of the channel, anything else changes nothing. -/
theorem ledView_step_calm (ch : Channel) (i : Input) (s : State)
    (hs : s.powered_down = false) (hc : calm ch i = true) :
    ledView ch (step i s) =
      ledView ch (if isTick30 i = true then ch.block s else s) := by
  simp only [calm, Bool.and_eq_true, Bool.or_eq_true, bne_iff_ne, ne_eq] at hc
  obtain ⟨⟨hb, hp⟩, hr⟩ := hc
  by_cases hw : ∀ f c u, i ≠ .wake f c u
  · have h30 : isTick30 i = false := by
      cases i <;> first | rfl | exact absurd rfl (hw _ _ _)
    rw [ledView_step_call ch i s hw hb, h30]
    simp
  · push_neg at hw
    obtain ⟨f, c, u, rfl⟩ := hw
    simp only [noPowerdown, beq_iff_eq] at hp
    rw [step, ledView_wake ch f c u s hs]
    unfold ledPass
    by_cases hrs : f &&& FLAGS_MAIN_RESET = 0
    · simp [hrs, hp, isTick30]
    · have hne : ch ≠ .cdc := by
        rcases hr with h | h
        · exact h
        · simp [noReset, hrs] at h
      have e := ledView_reset ch u s
      rw [if_neg hne] at e
      by_cases h30 : f &&& FLAGS_MAIN_30MS = 0
      · simpa [hrs, hp, isTick30, h30] using e
      · simp only [ne_eq, hrs, not_false_eq_true, if_true, hp, not_true_eq_false, if_false,
          h30, isTick30, bne_iff_ne]
        exact ledView_block_congr ch e

/-! ## A channel at rest shows its LED on -/

theorem reset_keeps_led (ch : Channel) (u : List Nat) (s : State) :
    ch.activity (main_task_reset u s) = ch.activity s ∧
    ch.value (main_task_reset u s) = ch.value s := by
  have e := ledView_reset ch u s
  by_cases hc : ch = .cdc
  · rw [if_pos hc] at e
    simp only [ledView, Prod.mk.injEq] at e
    exact ⟨e.1, e.2.2.1⟩
  · rw [if_neg hc] at e
    obtain ⟨h1, h2, h3, h4, h5⟩ := ledView_fields e
    exact ⟨h1, h3⟩

theorem block_rest_on (ch : Channel) (s : State)
    (h : ch.activity s = 0 → ch.value s ≠ 0) :
    ch.activity (ch.block s) = 0 → ch.value (ch.block s) ≠ 0 := by
  have e := ledView_block ch s
  by_cases hc : ch.activity s ≠ 0 ∧ ch.mode s ≠ .LED_OFF
  · rw [if_pos hc] at e
    simp only [ledView, Prod.mk.injEq] at e
    obtain ⟨e1, e2, e3, e4, e5⟩ := e
    rw [e1, e3]
    intro h0
    by_cases ht : toggled (ch.value s) ≠ 0 ∧ ch.mode s = .LED_FLASH
    · exact ht.1
    · rw [if_neg ht] at h0
      exact absurd h0 hc.1
  · rw [if_neg hc] at e
    obtain ⟨h1, h2, h3, h4, h5⟩ := ledView_fields e
    rw [h1, h3]
    exact h

theorem ledPass_rest_on (ch : Channel) (f : Nat) (u : List Nat) (s : State)
    (h : ch.activity s = 0 → ch.value s ≠ 0) :
    ch.activity (ledPass ch f u s) = 0 → ch.value (ledPass ch f u s) ≠ 0 := by
  have hR : ∀ r : State, (r = main_task_reset u s ∨ r = s) →
      (ch.activity r = 0 → ch.value r ≠ 0) := by
    intro r hr
    rcases hr with rfl | rfl
    · obtain ⟨k1, k2⟩ := reset_keeps_led ch u s
      rw [k1, k2]; exact h
    · exact h
  have hP : ∀ r : State, (ch.activity r = 0 → ch.value r ≠ 0) →
      (ch.activity (main_task_powerdown r) = 0 → ch.value (main_task_powerdown r) ≠ 0) := by
    intro r hr
    have e := ledView_powerdown ch r
    simp only [ledView, Prod.mk.injEq] at e
    rw [e.1, e.2.2.1]; exact hr
  unfold ledPass
  by_cases hrs : f &&& FLAGS_MAIN_RESET = 0 <;> by_cases hp : f &&& FLAGS_MAIN_POWERDOWN = 0 <;>
    by_cases h30 : f &&& FLAGS_MAIN_30MS = 0 <;>
    simp only [ne_eq, hrs, hp, h30, not_true_eq_false, not_false_eq_true, if_true, if_false]
  · exact h
  · exact block_rest_on ch s h
  · exact hP s h
  · exact hP s h
  · exact hR _ (Or.inl rfl)
  · exact block_rest_on ch _ (hR _ (Or.inl rfl))
  · exact hP _ (hR _ (Or.inl rfl))
  · exact hP _ (hR _ (Or.inl rfl))

theorem step_rest_on (ch : Channel) (i : Input) (s : State)
    (h : ch.activity s = 0 → ch.value s ≠ 0) :
    ch.activity (step i s) = 0 → ch.value (step i s) ≠ 0 := by
  by_cases hw : ∀ f c u, i ≠ .wake f c u
  · by_cases hb : noBlink ch i = true
    · obtain ⟨h1, h2, h3, h4, h5⟩ := ledView_fields (ledView_step_call ch i s hw hb)
      rw [h1, h3]; exact h
    · have hi : ∃ p, i = ch.blink p := by
        cases ch <;> cases i <;> simp [noBlink, Channel.blink] at hb ⊢
      obtain ⟨p, rfl⟩ := hi
      have e := ledView_blink ch p s
      simp only [ledView, Prod.mk.injEq] at e
      rw [e.1]
      intro h0; exact absurd h0 (by decide)
  · push_neg at hw
    obtain ⟨f, c, u, rfl⟩ := hw
    cases hs : s.powered_down
    · obtain ⟨h1, h2, h3, h4, h5⟩ := ledView_fields (ledView_wake ch f c u s hs)
      rw [step, h1, h3]
      exact ledPass_rest_on ch f u s h
    · rw [step, main_task_wake_halted f c u s hs]; exact h

/-- In every state reached from startup a channel whose activity flag is 0 has a
non-zero tracked LED value. -/
theorem run_rest_on (ch : Channel) (is : List Input) : ∀ (s : State),
    (ch.activity s = 0 → ch.value s ≠ 0) →
    (ch.activity (run is s) = 0 → ch.value (run is s) ≠ 0) := by
  induction is with
  | nil => intro s h; exact h
  | cons i is ih => intro s h; rw [run_cons]; exact ih _ (step_rest_on ch i s h)

theorem startup_rest_on (ch : Channel) : ch.activity startup = 0 → ch.value startup ≠ 0 := by
  cases ch <;> decide

/-! ## C7 -/

/-- The values a channel in `LED_FLASH` mode still has to push: off and on while
a pulse is pending and the LED is on, on alone when the LED is off, nothing when
no pulse is pending. -/
theorem flash_run (ch : Channel) (is : List Input) : ∀ (s : State),
    s.powered_down = false → ch.mode s = .LED_FLASH →
    (ch.activity s = 0 → ch.value s ≠ 0) →
    (∀ i ∈ is, calm ch i = true) →
    gpioPushes ch (run is s).trace = gpioPushes ch s.trace ++
      List.take (ticks30 is)
        (if ch.activity s = 0 then [] else if ch.value s ≠ 0 then [0, 1] else [1]) ∧
    ch.activity (run is s) =
      (if ticks30 is <
          (if ch.activity s = 0 then 0 else if ch.value s ≠ 0 then 2 else 1)
        then ch.activity s else 0) := by
  induction is with
  | nil =>
    intro s _ _ _ _
    by_cases ha : ch.activity s = 0 <;> by_cases hv : ch.value s = 0 <;>
      simp [run_nil, ticks30, ha, hv]
  | cons i is ih =>
    intro s hs hm hr hq
    have hi := hq i (List.mem_cons_self _ _)
    have hq2 : ∀ j ∈ is, calm ch j = true := fun j hj => hq j (List.mem_cons_of_mem _ hj)
    have e := ledView_step_calm ch i s hs hi
    rw [run_cons, ticks30_cons]
    by_cases ht : isTick30 i = true
    · rw [if_pos ht, ledView_block] at e
      simp only [ht, if_true]
      by_cases ha : ch.activity s = 0
      · rw [if_neg (by simp [ha])] at e
        obtain ⟨h1, h2, h3, h4, h5⟩ := ledView_fields e
        obtain ⟨r1, r2⟩ := ih (step i s) (h4.trans hs) (h2.trans hm)
          (by rw [h1, h3]; exact hr) hq2
        rw [r1, r2, h1, h5]
        simp [ha]
      · rw [if_pos ⟨ha, by rw [hm]; decide⟩] at e
        simp only [ledView, Prod.mk.injEq] at e
        obtain ⟨e1, e2, e3, e4, e5⟩ := e
        by_cases hv : ch.value s = 0
        · have htg : toggled (ch.value s) = 1 := by simp [toggled, hv]
          rw [htg] at e1 e3 e5
          simp only [hm, and_self, if_true, ne_eq, one_ne_zero, not_false_eq_true] at e1
          obtain ⟨r1, r2⟩ := ih (step i s) (e4.trans hs) (e2.trans hm)
            (by rw [e3]; intro _; decide) hq2
          rw [r1, r2, e1, e5]
          simp [ha, hv]
        · have htg : toggled (ch.value s) = 0 := by simp [toggled, hv]
          rw [htg] at e1 e3 e5
          simp only [ne_eq, not_true_eq_false, false_and, if_false] at e1
          obtain ⟨r1, r2⟩ := ih (step i s) (e4.trans hs) (e2.trans hm)
            (by rw [e1]; intro h0; exact absurd h0 ha) hq2
          rw [r1, r2, e1, e3, e5]
          simp only [ha, hv, if_false, ne_eq, not_true_eq_false, not_false_eq_true, if_true,
            List.append_assoc, List.singleton_append, List.take_succ_cons, true_and]
          by_cases hn : ticks30 is < 1
          · rw [if_pos hn, if_pos (by omega)]
          · rw [if_neg hn, if_neg (by omega)]
    · rw [if_neg ht] at e
      obtain ⟨h1, h2, h3, h4, h5⟩ := ledView_fields e
      have ht2 : isTick30 i = false := by simpa using ht
      simp only [ht2, Bool.false_eq_true, if_false, Nat.add_zero]
      obtain ⟨r1, r2⟩ := ih (step i s) (h4.trans hs) (h2.trans hm)
        (by rw [h1, h3]; exact hr) hq2
      rw [r1, r2, h1, h3, h5]
      exact ⟨rfl, rfl⟩

/-- C7: take any state reached from startup in which `main_task` has not powered
down and a channel has no activity pending, and call the `main_blink_*_led` of
that channel with `permanent = 0`.  Over any further inputs that are calm for the
channel (no new blink call for it, no power-down, and for the CDC channel no
reset request), the values pushed to the GPIO of the channel are the first
`n` of off, on, where `n` is the number of 30 ms ticks evaluated: off on the
first tick, on on the second, nothing afterwards.  The activity flag is 1 before
the second tick and 0 from the second tick on. -/
theorem C7_flash_one_pulse (ch : Channel) (pre is : List Input)
    (hs : (run pre startup).powered_down = false)
    (hidle : ch.activity (run pre startup) = 0)
    (hq : ∀ i ∈ is, calm ch i = true) :
    gpioPushes ch (run is (step (ch.blink 0) (run pre startup))).trace
      = gpioPushes ch (run pre startup).trace ++ List.take (ticks30 is) [0, 1] ∧
    ch.activity (run is (step (ch.blink 0) (run pre startup)))
      = (if ticks30 is < 2 then 1 else 0) := by
  have hv : ch.value (run pre startup) ≠ 0 :=
    run_rest_on ch pre startup (startup_rest_on ch) hidle
  have e := ledView_blink ch 0 (run pre startup)
  simp only [ledView, Prod.mk.injEq, ne_eq, not_true_eq_false, if_false] at e
  obtain ⟨e1, e2, e3, e4, e5⟩ := e
  obtain ⟨r1, r2⟩ := flash_run ch is (step (ch.blink 0) (run pre startup)) (e4.trans hs) e2
    (by rw [e1]; intro h0; exact absurd h0 (by decide)) hq
  rw [r1, r2, e1, e3, e5]
  simp [hv]

/-- C7 for the DAP channel at startup: a blink call, then three passes with
`FLAGS_MAIN_30MS`. -/
theorem C7_flash_one_pulse_witness :
    gpioPushes .dap (run [.wake FLAGS_MAIN_30MS 0 [], .wake FLAGS_MAIN_30MS 0 [],
        .wake FLAGS_MAIN_30MS 0 []] (step (Channel.dap.blink 0) (run [] startup))).trace
      = gpioPushes .dap (run [] startup).trace ++ [0, 1] ∧
    Channel.dap.activity (run [.wake FLAGS_MAIN_30MS 0 [], .wake FLAGS_MAIN_30MS 0 [],
        .wake FLAGS_MAIN_30MS 0 []] (step (Channel.dap.blink 0) (run [] startup))) = 0 :=
  C7_flash_one_pulse .dap [] [.wake FLAGS_MAIN_30MS 0 [], .wake FLAGS_MAIN_30MS 0 [],
    .wake FLAGS_MAIN_30MS 0 []] (by decide) (by decide) (by decide)

/-! ## C8 -/

theorem toggled_ne (v : Nat) : toggled v ≠ toggled (toggled v) := by
  by_cases h : v = 0 <;> simp [toggled, h]

theorem toggles_length (n : Nat) : ∀ v, (toggles n v).length = n := by
  induction n with
  | zero => intro v; rfl
  | succ n ih => intro v; simp [toggles, ih]

theorem toggles_alternate (n : Nat) : ∀ v, List.Chain' (fun a b => a ≠ b) (toggles n v) := by
  induction n with
  | zero => intro v; exact List.chain'_nil
  | succ n ih =>
    intro v
    cases n with
    | zero => exact List.chain'_singleton _
    | succ m =>
      have h := ih (toggled v)
      simp only [toggles] at h ⊢
      exact List.Chain'.cons (toggled_ne v) h

/-- A channel in `LED_FLASH_PERMANENT` mode with activity pending toggles and
pushes at every 30 ms tick and keeps its activity flag. -/
theorem permanent_run (ch : Channel) (is : List Input) : ∀ (s : State),
    s.powered_down = false → ch.mode s = .LED_FLASH_PERMANENT → ch.activity s ≠ 0 →
    (∀ i ∈ is, calm ch i = true) →
    ch.activity (run is s) = ch.activity s ∧
    ch.mode (run is s) = .LED_FLASH_PERMANENT ∧
    ch.value (run is s) = Nat.iterate toggled (ticks30 is) (ch.value s) ∧
    gpioPushes ch (run is s).trace
      = gpioPushes ch s.trace ++ toggles (ticks30 is) (ch.value s) := by
  induction is with
  | nil => intro s _ hm _ _; simp [run_nil, ticks30, toggles, hm]
  | cons i is ih =>
    intro s hs hm ha hq
    have hi := hq i (List.mem_cons_self _ _)
    have hq2 : ∀ j ∈ is, calm ch j = true := fun j hj => hq j (List.mem_cons_of_mem _ hj)
    have e := ledView_step_calm ch i s hs hi
    rw [run_cons, ticks30_cons]
    by_cases ht : isTick30 i = true
    · rw [if_pos ht, ledView_block, if_pos ⟨ha, by rw [hm]; decide⟩] at e
      simp only [ledView, Prod.mk.injEq, hm] at e
      obtain ⟨e1, e2, e3, e4, e5⟩ := e
      simp only [reduceCtorEq, and_false, if_false] at e1
      obtain ⟨r1, r2, r3, r4⟩ := ih (step i s) (e4.trans hs) e2 (by rw [e1]; exact ha) hq2
      simp only [ht, if_true]
      refine ⟨r1.trans e1, r2, ?_, ?_⟩
      · rw [r3, e3, Function.iterate_succ_apply]
      · rw [r4, e3, e5, toggles, List.append_assoc, List.singleton_append]
    · rw [if_neg ht] at e
      obtain ⟨h1, h2, h3, h4, h5⟩ := ledView_fields e
      have ht2 : isTick30 i = false := by simpa using ht
      simp only [ht2, Bool.false_eq_true, if_false, Nat.add_zero]
      obtain ⟨r1, r2, r3, r4⟩ :=
        ih (step i s) (h4.trans hs) (h2.trans hm) (by rw [h1]; exact ha) hq2
      exact ⟨r1.trans h1, r2, by rw [r3, h3], by rw [r4, h3, h5]⟩

/-- C8: in a running `main_task`, after a call of the `main_blink_*_led` of a
channel with `permanent` non-zero and over any further inputs that are calm for
the channel (no new blink call for it, no power-down, and for the CDC channel no
reset request, which would rewrite its mode), with `n` 30 ms ticks among them:
the activity flag is still set, the mode is still `LED_FLASH_PERMANENT`, the
tracked value has been toggled `n` times, each tick has pushed the value it
toggled to, so `n` values were pushed, and consecutive pushed values differ. -/
theorem C8_flash_permanent_never_clears (ch : Channel) (s : State) (p : Nat)
    (is : List Input)
    (hs : s.powered_down = false) (hp : p ≠ 0)
    (hq : ∀ i ∈ is, calm ch i = true) :
    ch.activity (run is (step (ch.blink p) s)) ≠ 0 ∧
    ch.mode (run is (step (ch.blink p) s)) = .LED_FLASH_PERMANENT ∧
    ch.value (run is (step (ch.blink p) s)) = Nat.iterate toggled (ticks30 is) (ch.value s) ∧
    gpioPushes ch (run is (step (ch.blink p) s)).trace
      = gpioPushes ch s.trace ++ toggles (ticks30 is) (ch.value s) ∧
    (toggles (ticks30 is) (ch.value s)).length = ticks30 is ∧
    List.Chain' (fun a b => a ≠ b) (toggles (ticks30 is) (ch.value s)) := by
  have e := ledView_blink ch p s
  simp only [ledView, Prod.mk.injEq, ne_eq, hp, not_false_eq_true, if_true] at e
  obtain ⟨e1, e2, e3, e4, e5⟩ := e
  obtain ⟨r1, r2, r3, r4⟩ := permanent_run ch is (step (ch.blink p) s) (e4.trans hs) e2
    (by rw [e1]; decide) hq
  refine ⟨by rw [r1, e1]; decide, r2, by rw [r3, e3], by rw [r4, e3, e5],
    toggles_length _ _, toggles_alternate _ _⟩

/-- C8 for the CDC channel at startup: a permanent blink call and five 30 ms ticks. -/
theorem C8_flash_permanent_never_clears_witness :
    Channel.cdc.activity (run (List.replicate 5 (.wake FLAGS_MAIN_30MS 0 []))
      (step (Channel.cdc.blink 1) startup)) ≠ 0 ∧
    gpioPushes .cdc (run (List.replicate 5 (.wake FLAGS_MAIN_30MS 0 []))
      (step (Channel.cdc.blink 1) startup)).trace
      = gpioPushes .cdc startup.trace ++ [0, 1, 0, 1, 0] :=
  have h := C8_flash_permanent_never_clears .cdc startup 1
    (List.replicate 5 (.wake FLAGS_MAIN_30MS 0 [])) (by decide) (by decide) (by decide)
  ⟨h.1, h.2.2.2.1⟩

/-! ## C9 and C10 -/

theorem wake_powerdown (s : State) (f c : Nat) (u : List Nat)
    (hs : s.powered_down = false) (hp : f &&& FLAGS_MAIN_POWERDOWN ≠ 0) :
    main_task_wake f c u s = main_task_powerdown (main_task_requests f u s) := by
  simp [main_task_wake, main_task_pass, hs, hp]

theorem powerdown_eq (s : State) :
    main_task_powerdown s =
      { s with powered_down := true, trace := s.trace ++ powerdownCalls } := by
  simp [main_task_powerdown, emit, powerdownCalls]

theorem run_halted (is : List Input) : ∀ (s : State), s.powered_down = true →
    (∀ i ∈ is, isWake i = true) → run is s = s := by
  induction is with
  | nil => intro s _ _; rfl
  | cons i is ih =>
    intro s hs hq
    have hi := hq i (List.mem_cons_self _ _)
    have hq2 : ∀ j ∈ is, isWake j = true := fun j hj => hq j (List.mem_cons_of_mem _ hj)
    cases i with
    | wake f c u =>
      rw [run_cons, step, main_task_wake_halted f c u s hs]
      exact ih s hs hq2
    | _ => simp [isWake] at hi

theorem requests_agree (f g : Nat) (u : List Nat) (s : State)
    (hd : g &&& FLAGS_MAIN_USB_DISCONNECT = f &&& FLAGS_MAIN_USB_DISCONNECT)
    (hr : g &&& FLAGS_MAIN_RESET = f &&& FLAGS_MAIN_RESET) :
    main_task_requests g u s = main_task_requests f u s := by
  simp [main_task_requests, hd, hr]

/-- C9: a pass of a running `main_task` whose flags hold `FLAGS_MAIN_POWERDOWN`
ends in the empty loop of line 299, after which no wake, whatever its flags and
collaborator answers, changes any variable or issues any call.  The pass itself
is the request handlers followed by the power-down handler and nothing else: the
disable-debug, 90 ms and 30 ms handlers are not run, so the result does not
depend on the other flag bits or on `usbd_configured()`, and the USB state, the
counters and the LED variables are those the request handlers left. -/
theorem C9_powerdown_absorbing (s : State) (f c : Nat) (u : List Nat)
    (hs : s.powered_down = false) (hp : f &&& FLAGS_MAIN_POWERDOWN ≠ 0) :
    (main_task_wake f c u s).powered_down = true ∧
    (∀ is : List Input, (∀ i ∈ is, isWake i = true) →
      run is (main_task_wake f c u s) = main_task_wake f c u s) ∧
    main_task_wake f c u s =
      { main_task_requests f u s with
        powered_down := true
        trace := (main_task_requests f u s).trace ++ powerdownCalls } ∧
    (∀ g d : Nat, g &&& FLAGS_MAIN_POWERDOWN ≠ 0 →
      g &&& FLAGS_MAIN_USB_DISCONNECT = f &&& FLAGS_MAIN_USB_DISCONNECT →
      g &&& FLAGS_MAIN_RESET = f &&& FLAGS_MAIN_RESET →
      main_task_wake g d u s = main_task_wake f c u s) ∧
    (f &&& FLAGS_MAIN_USB_DISCONNECT = 0 → f &&& FLAGS_MAIN_RESET = 0 →
      main_task_wake f c u s =
        { s with powered_down := true, trace := s.trace ++ powerdownCalls }) := by
  have e := wake_powerdown s f c u hs hp
  have hpd : (main_task_wake f c u s).powered_down = true := by
    rw [e, powerdown_eq]
  refine ⟨hpd, fun is hq => run_halted is _ hpd hq, by rw [e, powerdown_eq], ?_, ?_⟩
  · intro g d hg hd hr
    rw [e, wake_powerdown s g d u hs hg, requests_agree f g u s hd hr]
  · intro hd hr
    rw [e, powerdown_eq]
    simp [main_task_requests, hd, hr]

/-- C9 at startup: a pass with all six flags set, then another with all six. -/
theorem C9_powerdown_absorbing_witness :
    (main_task_wake 63 1 [] startup).powered_down = true ∧
    run [.wake 63 1 [], .wake 63 0 []] (main_task_wake 63 1 [] startup)
      = main_task_wake 63 1 [] startup ∧
    (main_task_wake 63 1 [] startup).usb_state_count = 4 :=
  have h := C9_powerdown_absorbing startup 63 1 [] (by decide) (by decide)
  ⟨h.1, h.2.1 _ (by decide), by decide⟩

/-- C10: a pass of a running `main_task` whose flags hold `FLAGS_MAIN_POWERDOWN`
first handles the disconnect and reset requests of the same flags and then
issues exactly `semihost_disable()`, `target_set_state(NO_DEBUG)`,
`usbd_connect(0)`, `gpio_set_dap_led(0)`, `gpio_set_cdc_led(0)` and
`gpio_set_msd_led(0)`, in this order, and nothing after them, before it stops in
the empty loop.  So the last state handed to `target_set_state` is `NO_DEBUG`
also when the reset request was in the same flags, the last `usbd_connect` is a
disconnect, and the last value pushed to each LED is 0. -/
theorem C10_powerdown_teardown (s : State) (f c : Nat) (u : List Nat)
    (hs : s.powered_down = false) (hp : f &&& FLAGS_MAIN_POWERDOWN ≠ 0) :
    (main_task_wake f c u s).trace = (main_task_requests f u s).trace ++
      [ .semihost_disable, .target_set_state .NO_DEBUG, .usbd_connect 0,
        .gpio_set_dap_led 0, .gpio_set_cdc_led 0, .gpio_set_msd_led 0 ] ∧
    (∃ es, (main_task_requests f u s).trace = s.trace ++ es) ∧
    (main_task_wake f c u s).powered_down = true ∧
    (targetStates (main_task_wake f c u s).trace).getLast? = some .NO_DEBUG ∧
    (usbConnects (main_task_wake f c u s).trace).getLast? = some 0 ∧
    (∀ ch : Channel, (gpioPushes ch (main_task_wake f c u s).trace).getLast? = some 0) := by
  have e := wake_powerdown s f c u hs hp
  rw [e, powerdown_eq]
  refine ⟨rfl, ?_, rfl, ?_, ?_, ?_⟩
  · unfold main_task_requests main_task_reset main_task_usb_disconnect
    by_cases hd : f &&& FLAGS_MAIN_USB_DISCONNECT = 0 <;>
      by_cases hr : f &&& FLAGS_MAIN_RESET = 0 <;> by_cases hu : s.send_uID = 0 <;>
      simp [hd, hr, hu, emit]
  · simp [powerdownCalls, List.getLast?_append]
  · simp [powerdownCalls, List.getLast?_append]
  · intro ch
    cases ch <;> simp [powerdownCalls, List.getLast?_append]

/-- C10 at startup with the reset request and the power-down in the same flags. -/
theorem C10_powerdown_teardown_witness :
    (targetStates (main_task_wake (FLAGS_MAIN_RESET ||| FLAGS_MAIN_POWERDOWN) 0 []
      startup).trace).getLast? = some .NO_DEBUG ∧
    (main_task_wake (FLAGS_MAIN_RESET ||| FLAGS_MAIN_POWERDOWN) 0 [] startup).powered_down
      = true :=
  have h := C10_powerdown_teardown startup (FLAGS_MAIN_RESET ||| FLAGS_MAIN_POWERDOWN) 0 []
    (by decide) (by decide)
  ⟨h.2.2.2.1, h.2.2.1⟩

/-! ## C11 -/

/-- A wake of the running task with only `FLAGS_MAIN_RESET` set is the reset handler. -/
theorem wake_reset_only (c : Nat) (u : List Nat) (s : State) (hs : s.powered_down = false) :
    main_task_wake FLAGS_MAIN_RESET c u s = main_task_reset u s := by
  have h1 : FLAGS_MAIN_RESET &&& FLAGS_MAIN_USB_DISCONNECT = 0 := by decide
  have h2 : FLAGS_MAIN_RESET &&& FLAGS_MAIN_RESET ≠ 0 := by decide
  have h3 : FLAGS_MAIN_RESET &&& FLAGS_MAIN_POWERDOWN = 0 := by decide
  have h4 : FLAGS_MAIN_RESET &&& FLAGS_MAIN_DISABLEDEBUG = 0 := by decide
  have h5 : FLAGS_MAIN_RESET &&& FLAGS_MAIN_90MS = 0 := by decide
  have h6 : FLAGS_MAIN_RESET &&& FLAGS_MAIN_30MS = 0 := by decide
  have h7 : FLAGS_MAIN_RESET ≠ 0 := by decide
  simp [main_task_wake, main_task_pass, main_task_requests, main_task_ticks, hs, h1, h2, h3,
    h4, h5, h6, h7]

/-- The calls of the reset handler, in order. -/
theorem reset_trace (u : List Nat) (s : State) :
    (main_task_reset u s).trace = s.trace ++
      (if s.send_uID ≠ 0 then
        [ .gpio_set_cdc_led 0, .target_set_state .RESET_HOLD, .get_uid_string,
          .USBD_CDC_ACM_DataSend u (strlen u), .target_set_state .RESET_RUN,
          .gpio_set_cdc_led 1 ]
      else [ .gpio_set_cdc_led 0, .target_set_state .RESET_RUN, .gpio_set_cdc_led 1 ]) := by
  unfold main_task_reset
  by_cases h : s.send_uID = 0 <;> simp [h, emit]

/-- C11: the reset handler of lines 263-281, which is all that a wake of the
running task with the flags `FLAGS_MAIN_RESET` executes.  With `send_uID`
non-zero its calls are, in order, the CDC LED off, `target_set_state(RESET_HOLD)`,
`get_uid_string()`, one `USBD_CDC_ACM_DataSend` of the string returned with its
`strlen`, `target_set_state(RESET_RUN)` and the CDC LED on, so the hold precedes
the single send; with `send_uID` zero there is neither `RESET_HOLD` nor a send.
In both cases `send_uID` is 0 afterwards; the value `USBD_CDC_ACM_DataSend`
returns is not read, so nothing depends on it.  And `main_reset_target(0)`
leaves `send_uID` as it is, while `main_reset_target` with a non-zero argument
sets it. -/
theorem C11_reset_unique_id (s : State) (c : Nat) (u : List Nat) :
    (s.powered_down = false →
      main_task_wake FLAGS_MAIN_RESET c u s = main_task_reset u s) ∧
    (∀ f, f &&& FLAGS_MAIN_RESET ≠ 0 →
      main_task_requests f u s = main_task_reset u
        (if f &&& FLAGS_MAIN_USB_DISCONNECT ≠ 0 then main_task_usb_disconnect s else s)) ∧
    (s.send_uID ≠ 0 →
      (main_task_reset u s).trace = s.trace ++
        [ .gpio_set_cdc_led 0, .target_set_state .RESET_HOLD, .get_uid_string,
          .USBD_CDC_ACM_DataSend u (strlen u), .target_set_state .RESET_RUN,
          .gpio_set_cdc_led 1 ] ∧
      dataSends (main_task_reset u s).trace = dataSends s.trace ++ [(u, strlen u)]) ∧
    (s.send_uID = 0 →
      (main_task_reset u s).trace = s.trace ++
        [ .gpio_set_cdc_led 0, .target_set_state .RESET_RUN, .gpio_set_cdc_led 1 ] ∧
      dataSends (main_task_reset u s).trace = dataSends s.trace) ∧
    (main_task_reset u s).send_uID = 0 ∧
    (main_reset_target 0 s).send_uID = s.send_uID ∧
    (∀ n, n ≠ 0 → (main_reset_target n s).send_uID = 1) := by
  have ht := reset_trace u s
  refine ⟨wake_reset_only c u s, ?_, ?_, ?_, ?_, ?_, ?_⟩
  · intro f hf
    simp [main_task_requests, hf]
  · intro h
    rw [if_pos h] at ht
    refine ⟨ht, ?_⟩
    rw [ht]
    simp [dataSends, List.filterMap_append]
  · intro h
    rw [if_neg (by simp [h])] at ht
    refine ⟨ht, ?_⟩
    rw [ht]
    simp [dataSends, List.filterMap_append]
  · unfold main_task_reset
    by_cases h : s.send_uID = 0 <;> simp [h, emit]
  · simp [main_reset_target, emit]
  · intro n hn
    simp [main_reset_target, emit, hn]

/-- C11 after `main_reset_target(1)` at startup: the reset pass sends the string
once, after the hold. -/
theorem C11_reset_unique_id_witness :
    (main_task_reset [65, 66, 0] (main_reset_target 1 startup)).trace =
      (main_reset_target 1 startup).trace ++
        [ .gpio_set_cdc_led 0, .target_set_state .RESET_HOLD, .get_uid_string,
          .USBD_CDC_ACM_DataSend [65, 66, 0] (strlen [65, 66, 0]),
          .target_set_state .RESET_RUN, .gpio_set_cdc_led 1 ] ∧
    (main_task_reset [65, 66, 0] (main_reset_target 1 startup)).send_uID = 0 :=
  have h := C11_reset_unique_id (main_reset_target 1 startup) 0 [65, 66, 0]
  ⟨(h.2.2.1 (by decide)).1, h.2.2.2.2.1⟩

/-! ## C12 -/

/-- C12 as stated fails at startup: the last state the reset handler hands to
`target_set_state` is not `RESET_RUN_WITH_DEBUG`. -/
theorem C12_reset_last_state_counterexample :
    (resetForwards [] startup).getLast? ≠ some .RESET_RUN_WITH_DEBUG ∧
    (resetForwards [] (main_reset_target 1 startup)).getLast? ≠ some .RESET_RUN_WITH_DEBUG := by
  decide

/-- C12 amended: for every state and either value of `send_uID`, the states the
reset handler hands to `target_set_state` are `RESET_HOLD` (only when `send_uID`
is non-zero) followed by `RESET_RUN`; the last one is `RESET_RUN`, the target is
released without the debug option. -/
theorem C12_reset_last_state_is_reset_run (s : State) (u : List Nat) :
    resetForwards u s = (if s.send_uID ≠ 0 then [.RESET_HOLD, .RESET_RUN] else [.RESET_RUN]) ∧
    (resetForwards u s).getLast? = some .RESET_RUN := by
  have ht := reset_trace u s
  unfold resetForwards
  rw [ht]
  by_cases h : s.send_uID = 0 <;> simp [h]

/-! ## C13 -/

/-- C13 as stated fails after `main_blink_cdc_led(0)` at startup: the CDC LED is
in `LED_FLASH` mode with activity pending, and the reset pass leaves the activity
flag set. -/
theorem C13_reset_serial_led_counterexample :
    (main_blink_cdc_led 0 startup).cdc_led_state = .LED_FLASH ∧
    (main_blink_cdc_led 0 startup).powered_down = false ∧
    (main_task_wake FLAGS_MAIN_RESET 0 [] (main_blink_cdc_led 0 startup)).cdc_led_state
      = .LED_FLASH ∧
    (main_task_wake FLAGS_MAIN_RESET 0 [] (main_blink_cdc_led 0 startup)).cdc_led_usb_activity
      ≠ 0 := by
  decide

/-- C13 amended: for every state the reset handler leaves `cdc_led_state` at
`LED_FLASH` and does not touch `cdc_led_usb_activity` or `cdc_led_value`; the
same holds for a whole pass of the running task whose flags hold
`FLAGS_MAIN_RESET` and not `FLAGS_MAIN_30MS`.  So the CDC LED ends armed, and not
pending exactly when it was not pending before. -/
theorem C13_reset_serial_led_armed (s : State) (f c : Nat) (u : List Nat) :
    (main_task_reset u s).cdc_led_state = .LED_FLASH ∧
    (main_task_reset u s).cdc_led_usb_activity = s.cdc_led_usb_activity ∧
    (main_task_reset u s).cdc_led_value = s.cdc_led_value ∧
    (s.powered_down = false → f &&& FLAGS_MAIN_RESET ≠ 0 → f &&& FLAGS_MAIN_30MS = 0 →
      (main_task_wake f c u s).cdc_led_state = .LED_FLASH ∧
      (main_task_wake f c u s).cdc_led_usb_activity = s.cdc_led_usb_activity ∧
      (main_task_wake f c u s).cdc_led_value = s.cdc_led_value) := by
  have e := ledView_reset .cdc u s
  simp only [if_true, ledView, Prod.mk.injEq, Channel.activity, Channel.mode,
    Channel.value] at e
  obtain ⟨e1, e2, e3, e4, e5⟩ := e
  refine ⟨e2, e1, e3, ?_⟩
  intro hs hr h30
  have w := ledView_wake .cdc f c u s hs
  by_cases hp : f &&& FLAGS_MAIN_POWERDOWN = 0
  · simp only [ledPass, ne_eq, hr, not_false_eq_true, if_true, hp, not_true_eq_false,
      if_false, h30] at w
    obtain ⟨w1, w2, w3, w4, w5⟩ := ledView_fields w
    simp only [Channel.activity, Channel.mode, Channel.value] at w1 w2 w3
    exact ⟨w2.trans e2, w1.trans e1, w3.trans e3⟩
  · simp only [ledPass, ne_eq, hr, not_false_eq_true, if_true, hp] at w
    rw [ledView_powerdown] at w
    simp only [ledView, Prod.mk.injEq, Channel.activity, Channel.mode, Channel.value] at w
    exact ⟨w.2.1.trans e2, w.1.trans e1, w.2.2.1.trans e3⟩

/-! ## C14 -/

@[simp] theorem buttonEnables_append (a b : List Event) :
    buttonEnables (a ++ b) = buttonEnables a + buttonEnables b := by
  simp [buttonEnables, List.countP_append]

@[simp] theorem buttonEnables_nil : buttonEnables [] = 0 := rfl

@[simp] theorem buttonEnables_cons (e : Event) (tr : List Event) :
    buttonEnables (e :: tr) = buttonEnables tr + (match e with
      | .gpio_enable_button_flag _ => 1
      | _ => 0) := by
  cases e <;> simp [buttonEnables, List.countP_cons]

theorem buttonView_disconnect (s : State) :
    buttonView (main_task_usb_disconnect s) = buttonView s := rfl

theorem buttonView_disabledebug (s : State) :
    buttonView (main_task_disabledebug s) = buttonView s := by
  simp [main_task_disabledebug, buttonView, emit]

theorem buttonView_usb_busy (s : State) :
    buttonView (main_task_usb_busy s) = buttonView s := by
  unfold main_task_usb_busy
  cases hb : s.usb_busy <;> by_cases hz : DECZERO s.usb_busy_count = 0 <;>
    simp [hz, buttonView]

theorem buttonView_usb_state (c : Nat) (s : State) :
    buttonView (main_task_usb_state c s) = buttonView s := by
  unfold main_task_usb_state
  cases hs : s.usb_state <;> cases hb : s.usb_busy <;>
    by_cases hz : DECZERO s.usb_state_count = 0 <;> by_cases hc : c = 0 <;>
    by_cases ht : s.thread_started = 0 <;> simp [emit, hz, hc, ht, buttonView]

theorem buttonView_dap_led (s : State) : buttonView (main_task_dap_led s) = buttonView s := by
  unfold main_task_dap_led
  by_cases ha : s.dap_led_usb_activity = 0 <;> cases hs : s.dap_led_state <;>
    by_cases hv : s.dap_led_value = 0 <;> simp [ha, hs, hv, buttonView, emit]

theorem buttonView_msd_led (s : State) : buttonView (main_task_msd_led s) = buttonView s := by
  unfold main_task_msd_led
  by_cases ha : s.msd_led_usb_activity = 0 <;> cases hs : s.msd_led_state <;>
    by_cases hv : s.msd_led_value = 0 <;> simp [ha, hs, hv, buttonView, emit]

theorem buttonView_cdc_led (s : State) : buttonView (main_task_cdc_led s) = buttonView s := by
  unfold main_task_cdc_led
  by_cases ha : s.cdc_led_usb_activity = 0 <;> cases hs : s.cdc_led_state <;>
    by_cases hv : s.cdc_led_value = 0 <;> simp [ha, hs, hv, buttonView, emit]

theorem buttonView_30ms (s : State) : buttonView (main_task_30ms s) = buttonView s := by
  rw [main_task_30ms, buttonView_cdc_led, buttonView_msd_led, buttonView_dap_led]

/-- The reset handler disarms the button and makes no `gpio_enable_button_flag` call. -/
theorem buttonView_reset (u : List Nat) (s : State) :
    buttonView (main_task_reset u s) = (0, s.powered_down, buttonEnables s.trace) := by
  unfold main_task_reset
  by_cases h : s.send_uID = 0 <;> simp [h, buttonView, emit]

/-- Lines 311-314 re-arm the button if and only if it is disarmed. -/
theorem buttonView_button (s : State) :
    buttonView (main_task_button s) =
      ((if s.button_activated = 0 then 1 else s.button_activated), s.powered_down,
        buttonEnables s.trace + (if s.button_activated = 0 then 1 else 0)) := by
  unfold main_task_button
  by_cases h : s.button_activated = 0 <;> simp [h, buttonView, emit]

theorem buttonView_90ms (c : Nat) (s : State) :
    buttonView (main_task_90ms c s) = buttonView (main_task_button s) := by
  rw [main_task_90ms, buttonView_usb_state, buttonView_usb_busy]

/-- What follows the power-down test, seen through the button view. -/
theorem buttonView_ticks (f c : Nat) (s : State) :
    buttonView (main_task_ticks f c s) =
      if f &&& FLAGS_MAIN_90MS ≠ 0 then
        ((if s.button_activated = 0 then 1 else s.button_activated), s.powered_down,
          buttonEnables s.trace + (if s.button_activated = 0 then 1 else 0))
      else buttonView s := by
  have hd : ∀ x : State, buttonView
      (if f &&& FLAGS_MAIN_DISABLEDEBUG ≠ 0 then main_task_disabledebug x else x)
      = buttonView x := by
    intro x
    by_cases h : f &&& FLAGS_MAIN_DISABLEDEBUG = 0
    · simp [h]
    · simp [h, buttonView_disabledebug]
  have hd3 := hd s
  simp only [buttonView, Prod.mk.injEq] at hd3
  obtain ⟨d1, d2, d3⟩ := hd3
  unfold main_task_ticks
  by_cases h30 : f &&& FLAGS_MAIN_30MS = 0 <;> by_cases h90 : f &&& FLAGS_MAIN_90MS = 0
  · simp only [ne_eq, h30, h90, not_true_eq_false, if_false]; exact hd s
  · simp only [ne_eq, h30, h90, not_true_eq_false, not_false_eq_true, if_true, if_false]
    rw [buttonView_90ms, buttonView_button, d1, d2, d3]
  · simp only [ne_eq, h30, h90, not_true_eq_false, not_false_eq_true, if_true, if_false]
    rw [buttonView_30ms]; exact hd s
  · simp only [ne_eq, h30, h90, not_false_eq_true, if_true]
    rw [buttonView_30ms, buttonView_90ms, buttonView_button, d1, d2, d3]

theorem buttonView_requests (f : Nat) (u : List Nat) (s : State) :
    buttonView (main_task_requests f u s) =
      if f &&& FLAGS_MAIN_RESET ≠ 0 then (0, s.powered_down, buttonEnables s.trace)
      else buttonView s := by
  have e1 : (main_task_usb_disconnect s).powered_down = s.powered_down := rfl
  have e2 : (main_task_usb_disconnect s).trace = s.trace := rfl
  unfold main_task_requests
  by_cases hd : f &&& FLAGS_MAIN_USB_DISCONNECT = 0 <;>
    by_cases hr : f &&& FLAGS_MAIN_RESET = 0 <;>
    simp [hd, hr, buttonView_reset, buttonView_disconnect, e1, e2]

/-- C14 as stated fails at startup: after a pass with the flags `FLAGS_MAIN_RESET`
alone the button is disarmed and no `gpio_enable_button_flag` call was made. -/
theorem C14_button_rearm_counterexample :
    FLAGS_MAIN_RESET &&& FLAGS_MAIN_RESET ≠ 0 ∧ FLAGS_MAIN_RESET &&& FLAGS_MAIN_POWERDOWN = 0 ∧
    (main_task_wake FLAGS_MAIN_RESET 0 [] startup).button_activated = 0 ∧
    buttonEnables (main_task_wake FLAGS_MAIN_RESET 0 [] startup).trace
      = buttonEnables startup.trace := by
  decide

/-- C14 amended: take a pass of the running task without `FLAGS_MAIN_POWERDOWN`.
If its flags hold `FLAGS_MAIN_RESET` and `FLAGS_MAIN_90MS`, it ends with
`button_activated = 1` after one `gpio_enable_button_flag` call.  If they hold
`FLAGS_MAIN_RESET` without `FLAGS_MAIN_90MS`, it ends with `button_activated = 0`
and no such call: the button stays disarmed.  Every pass with `FLAGS_MAIN_90MS`
ends with the button armed, and one that starts with the button disarmed re-arms
it with one `gpio_enable_button_flag` call; so the button is re-armed by the
first 90 ms tick at or after the reset request. -/
theorem C14_button_rearmed_on_tick (s : State) (f c : Nat) (u : List Nat)
    (hs : s.powered_down = false) (hp : f &&& FLAGS_MAIN_POWERDOWN = 0) :
    (f &&& FLAGS_MAIN_RESET ≠ 0 → f &&& FLAGS_MAIN_90MS ≠ 0 →
      (main_task_wake f c u s).button_activated = 1 ∧
      buttonEnables (main_task_wake f c u s).trace = buttonEnables s.trace + 1) ∧
    (f &&& FLAGS_MAIN_RESET ≠ 0 → f &&& FLAGS_MAIN_90MS = 0 →
      (main_task_wake f c u s).button_activated = 0 ∧
      buttonEnables (main_task_wake f c u s).trace = buttonEnables s.trace) ∧
    (f &&& FLAGS_MAIN_90MS ≠ 0 → (main_task_wake f c u s).button_activated ≠ 0) ∧
    (f &&& FLAGS_MAIN_90MS ≠ 0 → s.button_activated = 0 →
      (main_task_wake f c u s).button_activated = 1 ∧
      buttonEnables (main_task_wake f c u s).trace = buttonEnables s.trace + 1) := by
  have hw : main_task_wake f c u s = main_task_ticks f c (main_task_requests f u s) := by
    simp [main_task_wake, main_task_pass, hs, hp]
  have ht := buttonView_ticks f c (main_task_requests f u s)
  have hr := buttonView_requests f u s
  rw [← hw] at ht
  by_cases hR : f &&& FLAGS_MAIN_RESET = 0 <;> by_cases h90 : f &&& FLAGS_MAIN_90MS = 0
  · simp only [ne_eq, hR, not_true_eq_false, if_false, buttonView, Prod.mk.injEq] at hr
    obtain ⟨r1, r2, r3⟩ := hr
    simp [hR, h90]
  · simp only [ne_eq, hR, not_true_eq_false, if_false, buttonView, Prod.mk.injEq] at hr
    obtain ⟨r1, r2, r3⟩ := hr
    simp only [ne_eq, h90, not_false_eq_true, if_true, buttonView, Prod.mk.injEq, r1, r2,
      r3] at ht
    obtain ⟨t1, t2, t3⟩ := ht
    rw [t1, t3]
    by_cases hb : s.button_activated = 0 <;> simp [hR, h90, hb]
  · simp only [ne_eq, hR, not_false_eq_true, if_true, buttonView, Prod.mk.injEq] at hr
    obtain ⟨r1, r2, r3⟩ := hr
    simp only [ne_eq, h90, not_true_eq_false, if_false, buttonView, Prod.mk.injEq, r1, r2,
      r3] at ht
    obtain ⟨t1, t2, t3⟩ := ht
    simp [hR, h90, t1, t3]
  · simp only [ne_eq, hR, not_false_eq_true, if_true, buttonView, Prod.mk.injEq] at hr
    obtain ⟨r1, r2, r3⟩ := hr
    simp only [ne_eq, h90, not_false_eq_true, if_true, buttonView, Prod.mk.injEq, r1, r2,
      r3] at ht
    obtain ⟨t1, t2, t3⟩ := ht
    simp [hR, h90, t1, t3]

/-- C14 at startup: the reset request together with the 90 ms tick re-arms the
button; the reset request alone does not, and the next tick does. -/
theorem C14_button_rearmed_on_tick_witness :
    (main_task_wake (FLAGS_MAIN_RESET ||| FLAGS_MAIN_90MS) 0 [] startup).button_activated = 1 ∧
    (main_task_wake FLAGS_MAIN_90MS 0 []
      (main_task_wake FLAGS_MAIN_RESET 0 [] startup)).button_activated = 1 :=
  ⟨((C14_button_rearmed_on_tick startup (FLAGS_MAIN_RESET ||| FLAGS_MAIN_90MS) 0 []
      (by decide) (by decide)).1 (by decide) (by decide)).1,
   ((C14_button_rearmed_on_tick (main_task_wake FLAGS_MAIN_RESET 0 [] startup)
      FLAGS_MAIN_90MS 0 [] (by decide) (by decide)).2.2.2 (by decide) (by decide)).1⟩

/-! ## C15 -/

/-- The eight-bit counter of the timer task holds the pass number modulo 256. -/
theorem timer_task_30mS_i_eq (n : Nat) : timer_task_30mS_i n = n % 256 := by
  induction n with
  | zero => rfl
  | succ n ih =>
    simp only [timer_task_30mS_i, timer_task_30mS_pass, ih]
    omega

/-- C15, what the code does: every pass of the timer task raises
`FLAGS_MAIN_30MS`, and pass number `n` (counted from 0) raises `FLAGS_MAIN_90MS`
exactly when `n % 256` is a multiple of 3, because the counter is a `uint8_t`.
So pass 256 raises `FLAGS_MAIN_90MS` although 256 is not a multiple of 3, and it
does so right after pass 255, which raises it too. -/
theorem C15_timer_wraps_at_256 :
    (∀ n, Event.os_evt_set FLAGS_MAIN_30MS ∈ timer_task_30mS_calls n) ∧
    (∀ n, Event.os_evt_set FLAGS_MAIN_90MS ∈ timer_task_30mS_calls n ↔ n % 256 % 3 = 0) ∧
    (∀ n, n < 256 →
      (Event.os_evt_set FLAGS_MAIN_90MS ∈ timer_task_30mS_calls n ↔ n % 3 = 0)) ∧
    Event.os_evt_set FLAGS_MAIN_90MS ∈ timer_task_30mS_calls 255 ∧
    Event.os_evt_set FLAGS_MAIN_90MS ∈ timer_task_30mS_calls 256 ∧
    256 % 3 ≠ 0 := by
  have h2 : ∀ n, Event.os_evt_set FLAGS_MAIN_90MS ∈ timer_task_30mS_calls n ↔
      n % 256 % 3 = 0 := by
    intro n
    have hne : FLAGS_MAIN_90MS ≠ FLAGS_MAIN_30MS := by decide
    simp only [timer_task_30mS_calls, timer_task_30mS_pass, timer_task_30mS_i_eq]
    by_cases h : n % 256 % 3 = 0 <;> simp [h, hne]
  refine ⟨?_, h2, ?_, (h2 255).mpr (by decide), (h2 256).mpr (by decide), by decide⟩
  · intro n
    simp only [timer_task_30mS_calls, timer_task_30mS_pass]
    by_cases h : timer_task_30mS_i n % 3 = 0 <;> simp [h]
  · intro n hn
    rw [h2, Nat.mod_eq_of_lt hn]

/-! ## C16 and C17 -/

@[simp] theorem flagsRaised_append (a b : List Event) :
    flagsRaised (a ++ b) = flagsRaised a ++ flagsRaised b := by
  simp [flagsRaised, List.filterMap_append]

@[simp] theorem flagsRaised_nil : flagsRaised [] = [] := rfl

@[simp] theorem flagsRaised_cons (e : Event) (tr : List Event) :
    flagsRaised (e :: tr) = (match e with
      | .os_evt_set f => [f]
      | _ => []) ++ flagsRaised tr := by
  cases e <;> rfl

@[simp] theorem dataSends_append (a b : List Event) :
    dataSends (a ++ b) = dataSends a ++ dataSends b := by
  simp [dataSends, List.filterMap_append]

@[simp] theorem dataSends_nil : dataSends [] = [] := rfl

@[simp] theorem dataSends_cons (e : Event) (tr : List Event) :
    dataSends (e :: tr) = (match e with
      | .USBD_CDC_ACM_DataSend buf len => [(buf, len)]
      | _ => []) ++ dataSends tr := by
  cases e <;> rfl

@[simp] theorem uartWrites_append (a b : List Event) :
    uartWrites (a ++ b) = uartWrites a ++ uartWrites b := by
  simp [uartWrites, List.filterMap_append]

@[simp] theorem uartWrites_nil : uartWrites [] = [] := rfl

@[simp] theorem uartWrites_cons (e : Event) (tr : List Event) :
    uartWrites (e :: tr) = (match e with
      | .uart_write_data buf len => [(buf, len)]
      | _ => []) ++ uartWrites tr := by
  cases e <;> rfl

/-- The state after a pass of `serial_process`: the calls of the pass are added
to the trace, and `main_blink_cdc_led(0)` has been applied if a forward step
succeeded; nothing else is written. -/
theorem serial_process_pass_eq (uart_len : Nat) (rx : List Nat) (send_ok usb_len : Nat)
    (tx : List Nat) (write_ok : Nat) (s : State) :
    serial_process_pass uart_len rx send_ok usb_len tx write_ok s =
      { (if serialPulse uart_len send_ok usb_len write_ok = true
          then main_blink_cdc_led 0 s else s) with
        trace := s.trace ++ [.uart_read_data SIZE_DATA] ++
          (if uart_len % 2 ^ 8 ≠ 0 then [.USBD_CDC_ACM_DataSend rx (uart_len % 2 ^ 8)] else []) ++
          [.USBD_CDC_ACM_DataRead SIZE_DATA] ++
          (if usb_len % 2 ^ 8 ≠ 0 then [.uart_write_data tx (usb_len % 2 ^ 8)] else []) } := by
  have e : (2 : Nat) ^ 8 = 256 := by decide
  unfold serial_process_pass serialPulse
  simp only [e]
  by_cases h1 : uart_len % 256 = 0 <;> by_cases h2 : send_ok = 0 <;>
    by_cases h3 : usb_len % 256 = 0 <;> by_cases h4 : write_ok = 0 <;>
    simp [h1, h2, h3, h4, emit, main_blink_cdc_led]

/-- C16 as stated fails at startup: `main_usb_busy_event` and
`main_blink_dap_led(0)` change the lifecycle state and raise no flag, and a pass
of `serial_process` whose forward step succeeds changes it too. -/
theorem C16_signals_counterexample :
    lifecycle (main_usb_busy_event startup) ≠ lifecycle startup ∧
    flagsRaised (main_usb_busy_event startup).trace = flagsRaised startup.trace ∧
    lifecycle (main_blink_dap_led 0 startup) ≠ lifecycle startup ∧
    flagsRaised (main_blink_dap_led 0 startup).trace = flagsRaised startup.trace ∧
    lifecycle (serial_process_pass 1 [65] 1 0 [] 0 startup) ≠ lifecycle startup := by
  decide

/-- C16 amended: `main_usb_disconnect_event`, `main_powerdown_event` and
`main_disable_debug_event` leave the lifecycle state as it is and raise one flag;
`main_reset_target` does the same and may set `send_uID`.  The three
`main_blink_*_led` raise no flag and make no call: they set the activity flag of
their channel to 1 and its mode to `LED_FLASH` or `LED_FLASH_PERMANENT`, and leave
its tracked value, the other channels, the USB state, the busy state and counter
and the debug state alone.  `main_usb_busy_event` raises no flag and makes no
call: it sets `usb_busy` to `USB_ACTIVE` and `usb_busy_count` to `USB_BUSY_TIME`
and leaves the rest alone.  A pass of `serial_process` raises no flag and changes
the lifecycle state exactly as `main_blink_cdc_led(0)` does when a forward step
succeeded, and not at all otherwise. -/
theorem C16_signals_frame (s : State) :
    (∀ n, lifecycle (main_reset_target n s) = lifecycle s ∧
      flagsRaised (main_reset_target n s).trace = flagsRaised s.trace ++ [FLAGS_MAIN_RESET]) ∧
    (lifecycle (main_usb_disconnect_event s) = lifecycle s ∧
      flagsRaised (main_usb_disconnect_event s).trace
        = flagsRaised s.trace ++ [FLAGS_MAIN_USB_DISCONNECT]) ∧
    (lifecycle (main_powerdown_event s) = lifecycle s ∧
      flagsRaised (main_powerdown_event s).trace
        = flagsRaised s.trace ++ [FLAGS_MAIN_POWERDOWN]) ∧
    (lifecycle (main_disable_debug_event s) = lifecycle s ∧
      flagsRaised (main_disable_debug_event s).trace
        = flagsRaised s.trace ++ [FLAGS_MAIN_DISABLEDEBUG]) ∧
    (∀ (ch : Channel) (p : Nat),
      (step (ch.blink p) s).trace = s.trace ∧
      ledFields ch (step (ch.blink p) s) =
        ((if p ≠ 0 then .LED_FLASH_PERMANENT else .LED_FLASH), 1, ch.value s) ∧
      (∀ other : Channel, other ≠ ch →
        ledFields other (step (ch.blink p) s) = ledFields other s) ∧
      (step (ch.blink p) s).usb_state = s.usb_state ∧
      (step (ch.blink p) s).usb_busy = s.usb_busy ∧
      (step (ch.blink p) s).usb_busy_count = s.usb_busy_count) ∧
    ((main_usb_busy_event s).trace = s.trace ∧
      (main_usb_busy_event s).usb_busy = .USB_ACTIVE ∧
      (main_usb_busy_event s).usb_busy_count = USB_BUSY_TIME ∧
      (main_usb_busy_event s).usb_state = s.usb_state ∧
      (∀ ch : Channel, ledFields ch (main_usb_busy_event s) = ledFields ch s)) ∧
    (∀ (uart_len : Nat) (rx : List Nat) (send_ok usb_len : Nat) (tx : List Nat)
        (write_ok : Nat),
      flagsRaised (serial_process_pass uart_len rx send_ok usb_len tx write_ok s).trace
        = flagsRaised s.trace ∧
      lifecycle (serial_process_pass uart_len rx send_ok usb_len tx write_ok s) =
        lifecycle (if serialPulse uart_len send_ok usb_len write_ok = true
          then main_blink_cdc_led 0 s else s)) := by
  refine ⟨?_, ?_, ?_, ?_, ?_, ?_, ?_⟩
  · intro n
    by_cases hn : n = 0 <;>
      simp [main_reset_target, hn, lifecycle, ledFields, emit, Channel.activity, Channel.mode,
        Channel.value, FLAGS_MAIN_RESET]
  · simp [main_usb_disconnect_event, lifecycle, ledFields, emit, Channel.activity,
      Channel.mode, Channel.value]
  · simp [main_powerdown_event, lifecycle, ledFields, emit, Channel.activity,
      Channel.mode, Channel.value]
  · simp [main_disable_debug_event, lifecycle, ledFields, emit, Channel.activity,
      Channel.mode, Channel.value]
  · intro ch p
    refine ⟨?_, ?_, ?_, ?_, ?_, ?_⟩
    · cases ch <;> rfl
    · cases ch <;>
        simp [Channel.blink, step, main_blink_dap_led, main_blink_cdc_led, main_blink_msd_led,
          ledFields, Channel.activity, Channel.mode, Channel.value]
    · intro other ho
      cases ch <;> cases other <;>
        first
        | exact absurd rfl ho
        | rfl
    · cases ch <;> rfl
    · cases ch <;> rfl
    · cases ch <;> rfl
  · refine ⟨rfl, rfl, rfl, rfl, ?_⟩
    intro ch; cases ch <;> rfl
  · intro uart_len rx send_ok usb_len tx write_ok
    have e : (2 : Nat) ^ 8 = 256 := by decide
    rw [serial_process_pass_eq]
    simp only [e]
    by_cases h1 : uart_len % 256 = 0 <;> by_cases h3 : usb_len % 256 = 0 <;>
      cases hP : serialPulse uart_len send_ok usb_len write_ok <;>
      simp [h1, h3, lifecycle, ledFields, main_blink_cdc_led, Channel.activity,
        Channel.mode, Channel.value]

/-- C17: one pass of `serial_process`, for every state and all collaborator
answers whose lengths respect the size `SIZE_DATA` asked for.
`USBD_CDC_ACM_DataSend` is called once, with the bytes and the length read from
the UART, if `uart_read_data` returned a non-zero length, and not at all
otherwise; `uart_write_data` is called once, with the bytes and the length read
from USB, if `USBD_CDC_ACM_DataRead` returned a non-zero length, and not at all
otherwise.  The state afterwards is the one `main_blink_cdc_led(0)` gives if an
attempted forward step returned non-zero, and the state before otherwise, with
the calls of the pass added to the trace: a failed step writes nothing and is
not repeated. -/
theorem C17_serial_forwarding (s : State) (uart_len : Nat) (rx : List Nat)
    (send_ok usb_len : Nat) (tx : List Nat) (write_ok : Nat)
    (h1 : uart_len ≤ SIZE_DATA) (h2 : usb_len ≤ SIZE_DATA) :
    dataSends (serial_process_pass uart_len rx send_ok usb_len tx write_ok s).trace
      = dataSends s.trace ++ (if uart_len ≠ 0 then [(rx, uart_len)] else []) ∧
    uartWrites (serial_process_pass uart_len rx send_ok usb_len tx write_ok s).trace
      = uartWrites s.trace ++ (if usb_len ≠ 0 then [(tx, usb_len)] else []) ∧
    (serial_process_pass uart_len rx send_ok usb_len tx write_ok s).trace
      = s.trace ++ [.uart_read_data SIZE_DATA] ++
          (if uart_len ≠ 0 then [.USBD_CDC_ACM_DataSend rx uart_len] else []) ++
          [.USBD_CDC_ACM_DataRead SIZE_DATA] ++
          (if usb_len ≠ 0 then [.uart_write_data tx usb_len] else []) ∧
    serial_process_pass uart_len rx send_ok usb_len tx write_ok s =
      { (if (uart_len ≠ 0 ∧ send_ok ≠ 0) ∨ (usb_len ≠ 0 ∧ write_ok ≠ 0)
          then main_blink_cdc_led 0 s else s) with
        trace := (serial_process_pass uart_len rx send_ok usb_len tx write_ok s).trace } ∧
    (s.cdc_led_usb_activity = 0 →
      ((serial_process_pass uart_len rx send_ok usb_len tx write_ok s).cdc_led_usb_activity ≠ 0
        ↔ (uart_len ≠ 0 ∧ send_ok ≠ 0) ∨ (usb_len ≠ 0 ∧ write_ok ≠ 0))) := by
  simp only [SIZE_DATA] at h1 h2
  have e1 : uart_len % 2 ^ 8 = uart_len := Nat.mod_eq_of_lt (by omega)
  have e2 : usb_len % 2 ^ 8 = usb_len := Nat.mod_eq_of_lt (by omega)
  rw [serial_process_pass_eq]
  simp only [serialPulse, e1, e2]
  by_cases a1 : uart_len = 0 <;> by_cases a2 : send_ok = 0 <;>
    by_cases a3 : usb_len = 0 <;> by_cases a4 : write_ok = 0 <;>
    simp [a1, a2, a3, a4, main_blink_cdc_led]

/-- C17 at startup: the UART had three bytes and the send failed, USB had two
bytes and the write succeeded. -/
theorem C17_serial_forwarding_witness :
    dataSends (serial_process_pass 3 [1, 2, 3] 0 2 [4, 5] 1 startup).trace
      = dataSends startup.trace ++ [([1, 2, 3], 3)] ∧
    uartWrites (serial_process_pass 3 [1, 2, 3] 0 2 [4, 5] 1 startup).trace
      = uartWrites startup.trace ++ [([4, 5], 2)] ∧
    (serial_process_pass 3 [1, 2, 3] 0 2 [4, 5] 1 startup).cdc_led_usb_activity ≠ 0 :=
  have h := C17_serial_forwarding startup 3 [1, 2, 3] 0 2 [4, 5] 1 (by decide) (by decide)
  ⟨h.1, h.2.1, (h.2.2.2.2 (by decide)).mpr (by decide)⟩

/-! ## C19 -/

theorem toggled_eq_one (v : Nat) (h : toggled v ≠ 0) : toggled v = 1 := by
  unfold toggled at h ⊢
  split <;> simp_all

theorem block_rest_one (ch : Channel) (s : State)
    (h : ch.activity s = 0 → ch.value s = 1) :
    ch.activity (ch.block s) = 0 → ch.value (ch.block s) = 1 := by
  have e := ledView_block ch s
  by_cases hc : ch.activity s ≠ 0 ∧ ch.mode s ≠ .LED_OFF
  · rw [if_pos hc] at e
    simp only [ledView, Prod.mk.injEq] at e
    obtain ⟨e1, e2, e3, e4, e5⟩ := e
    rw [e1, e3]
    intro h0
    by_cases ht : toggled (ch.value s) ≠ 0 ∧ ch.mode s = .LED_FLASH
    · exact toggled_eq_one _ ht.1
    · rw [if_neg ht] at h0
      exact absurd h0 hc.1
  · rw [if_neg hc] at e
    obtain ⟨h1, h2, h3, h4, h5⟩ := ledView_fields e
    rw [h1, h3]
    exact h

theorem ledPass_rest_one (ch : Channel) (f : Nat) (u : List Nat) (s : State)
    (h : ch.activity s = 0 → ch.value s = 1) :
    ch.activity (ledPass ch f u s) = 0 → ch.value (ledPass ch f u s) = 1 := by
  have hR : ch.activity (main_task_reset u s) = 0 → ch.value (main_task_reset u s) = 1 := by
    obtain ⟨k1, k2⟩ := reset_keeps_led ch u s
    rw [k1, k2]; exact h
  have hP : ∀ r : State, (ch.activity r = 0 → ch.value r = 1) →
      (ch.activity (main_task_powerdown r) = 0 → ch.value (main_task_powerdown r) = 1) := by
    intro r hr
    have e := ledView_powerdown ch r
    simp only [ledView, Prod.mk.injEq] at e
    rw [e.1, e.2.2.1]; exact hr
  unfold ledPass
  by_cases hrs : f &&& FLAGS_MAIN_RESET = 0 <;> by_cases hp : f &&& FLAGS_MAIN_POWERDOWN = 0 <;>
    by_cases h30 : f &&& FLAGS_MAIN_30MS = 0 <;>
    simp only [ne_eq, hrs, hp, h30, not_true_eq_false, not_false_eq_true, if_true, if_false]
  · exact h
  · exact block_rest_one ch s h
  · exact hP s h
  · exact hP s h
  · exact hR
  · exact block_rest_one ch _ hR
  · exact hP _ hR
  · exact hP _ hR

theorem step_rest_one (ch : Channel) (i : Input) (s : State)
    (h : ch.activity s = 0 → ch.value s = 1) :
    ch.activity (step i s) = 0 → ch.value (step i s) = 1 := by
  by_cases hw : ∀ f c u, i ≠ .wake f c u
  · by_cases hb : noBlink ch i = true
    · obtain ⟨h1, h2, h3, h4, h5⟩ := ledView_fields (ledView_step_call ch i s hw hb)
      rw [h1, h3]; exact h
    · have hi : ∃ p, i = ch.blink p := by
        cases ch <;> cases i <;> simp [noBlink, Channel.blink] at hb ⊢
      obtain ⟨p, rfl⟩ := hi
      have e := ledView_blink ch p s
      simp only [ledView, Prod.mk.injEq] at e
      rw [e.1]
      intro h0; exact absurd h0 (by decide)
  · push_neg at hw
    obtain ⟨f, c, u, rfl⟩ := hw
    cases hs : s.powered_down
    · obtain ⟨h1, h2, h3, h4, h5⟩ := ledView_fields (ledView_wake ch f c u s hs)
      rw [step, h1, h3]
      exact ledPass_rest_one ch f u s h
    · rw [step, main_task_wake_halted f c u s hs]; exact h

theorem run_rest_one (ch : Channel) (is : List Input) : ∀ (s : State),
    (ch.activity s = 0 → ch.value s = 1) →
    (ch.activity (run is s) = 0 → ch.value (run is s) = 1) := by
  induction is with
  | nil => intro s h; exact h
  | cons i is ih => intro s h; rw [run_cons]; exact ih _ (step_rest_one ch i s h)

/-- C19: in every state reached from startup by any sequence of inputs (wakes of
`main_task` with any flags and answers, `main_blink_*_led` calls with any
argument, and the other calls), a channel whose activity flag is 0 has its
tracked LED value at 1, on. -/
theorem C19_rest_value_on (ch : Channel) (is : List Input)
    (h : ch.activity (run is startup) = 0) : ch.value (run is startup) = 1 :=
  run_rest_one ch is startup (by cases ch <;> decide) h

/-- C19 for the CDC channel after a one-shot pulse has run its two ticks. -/
theorem C19_rest_value_on_witness :
    Channel.cdc.value (run [.blink_cdc_led 0, .wake FLAGS_MAIN_30MS 0 [],
      .wake FLAGS_MAIN_30MS 0 []] startup) = 1 :=
  C19_rest_value_on .cdc [.blink_cdc_led 0, .wake FLAGS_MAIN_30MS 0 [],
    .wake FLAGS_MAIN_30MS 0 []] (by decide)

/-! ## C20 -/

/-- C20: take a running `main_task` in `USB_DISCONNECT_CONNECT` and a pass with
`FLAGS_MAIN_90MS`, without disconnect request or power-down.  After the busy
update of that pass `usb_busy` is still `USB_ACTIVE` exactly when it was active
with a busy counter of 2 or more.  In that case the pass leaves `usb_state` and
the hold counter `usb_state_count` as they are and issues no `usbd_connect` and
no `update_html_file`.  When the busy update leaves `usb_busy` idle, which
includes the pass on which the busy counter reaches 0, the hold counter is
decremented (not below 0); the state stays while the counter is non-zero, and at
0 `usbd_connect(0)` is issued and the state becomes `USB_CONNECTING`.  An input
that is no 90 ms tick, disconnect request or power-down leaves the hold counter
and the state alone. -/
theorem C20_hold_frozen_while_busy (s : State) (i j : Input)
    (hs : s.powered_down = false) (hst : s.usb_state = .USB_DISCONNECT_CONNECT)
    (hi : isTick90 i = true ∧ noDisconnect i = true ∧ noPowerdown i = true)
    (hj : isTick90 j = false ∧ noDisconnect j = true ∧ noPowerdown j = true) :
    ((main_task_usb_busy s).usb_busy = .USB_ACTIVE ↔
      s.usb_busy = .USB_ACTIVE ∧ 2 ≤ s.usb_busy_count) ∧
    ((main_task_usb_busy s).usb_busy = .USB_ACTIVE →
      (step i s).usb_state = .USB_DISCONNECT_CONNECT ∧
      (step i s).usb_state_count = s.usb_state_count ∧
      usbConnects (step i s).trace = usbConnects s.trace ∧
      htmlUpdates (step i s).trace = htmlUpdates s.trace) ∧
    ((main_task_usb_busy s).usb_busy = .USB_IDLE →
      (step i s).usb_state_count = s.usb_state_count - 1 ∧
      (2 ≤ s.usb_state_count →
        (step i s).usb_state = .USB_DISCONNECT_CONNECT ∧
        usbConnects (step i s).trace = usbConnects s.trace) ∧
      (s.usb_state_count ≤ 1 →
        (step i s).usb_state = .USB_CONNECTING ∧
        usbConnects (step i s).trace = usbConnects s.trace ++ [0])) ∧
    ((step j s).usb_state = .USB_DISCONNECT_CONNECT ∧
      (step j s).usb_state_count = s.usb_state_count) := by
  obtain ⟨a1, a2, a3, a4, a5, a6, a7, a8, a9, a10⟩ :=
    usbView_fields (usbView_step_tick i s hs hi.1 hi.2.1 hi.2.2)
  obtain ⟨k1, k2, k3, k4, k5⟩ := usb_busy_keeps s
  obtain ⟨q1, q2, q3, q4⟩ := step_keeps_connection j s hs hj.1 hj.2.1 hj.2.2
  have hz : DECZERO s.usb_state_count = s.usb_state_count - 1 := by
    unfold DECZERO; split <;> omega
  refine ⟨?_, ?_, ?_, q2.trans hst, q3⟩
  · cases hb : s.usb_busy
    · rw [usb_busy_idle s hb, hb]; simp
    · obtain ⟨u1, u2⟩ := usb_busy_active s hb
      rw [u2]
      by_cases h1 : s.usb_busy_count ≤ 1
      · rw [if_pos h1]; simp; omega
      · rw [if_neg h1]; simp; omega
  · intro hb
    simp [main_task_usb_state, k1, k2, k5, hst, hb] at a1 a2 a7 a8
    exact ⟨a1, a2, a7, a8⟩
  · intro hb
    refine ⟨?_, ?_, ?_⟩
    · by_cases h0 : s.usb_state_count - 1 = 0
      · simp [main_task_usb_state, k1, k2, k5, hst, hb, hz, h0, emit] at a2
        rw [a2, h0]
      · simp [main_task_usb_state, k1, k2, k5, hst, hb, hz, h0, emit] at a2
        exact a2
    · intro h2
      have h0 : ¬ s.usb_state_count - 1 = 0 := by omega
      simp [main_task_usb_state, k1, k2, k5, hst, hb, hz, h0] at a1 a7
      exact ⟨a1, a7⟩
    · intro h1
      have h0 : s.usb_state_count - 1 = 0 := by omega
      simp [main_task_usb_state, k1, k2, k5, hst, hb, hz, h0, emit] at a1 a7
      exact ⟨a1, a7⟩

/-- C20 at startup after a disconnect request and a busy-begin call: the 90 ms
tick finds USB still busy and leaves the hold counter at 4. -/
theorem C20_hold_frozen_while_busy_witness :
    (step (.wake FLAGS_MAIN_90MS 0 [])
      (run [.wake FLAGS_MAIN_USB_DISCONNECT 0 [], .usb_busy_event] startup)).usb_state_count
      = (run [.wake FLAGS_MAIN_USB_DISCONNECT 0 [], .usb_busy_event] startup).usb_state_count ∧
    (run [.wake FLAGS_MAIN_USB_DISCONNECT 0 [], .usb_busy_event] startup).usb_state_count = 4 :=
  have h := C20_hold_frozen_while_busy
    (run [.wake FLAGS_MAIN_USB_DISCONNECT 0 [], .usb_busy_event] startup)
    (.wake FLAGS_MAIN_90MS 0 []) (.wake FLAGS_MAIN_30MS 0 [])
    (by decide) (by decide) (by decide) (by decide)
  ⟨(h.2.1 (by decide)).2.1, by decide⟩

end CmsisDap
